import Mathlib

/-!
OpenGLProject1: the two example programs as call-sequencing state machines.

Two programs are embedded:

* `C04` is `C04 - HelloWindow.cpp` (window, one buffer upload, clear-only loop);
* `C05` is `main.cpp` (adds the shader build, the vertex array and the draw call).

Both are glue code over GLFW, GLAD and OpenGL.  Every call into those libraries
is logged in `Sys.calls` in issue order, together with the small part of the
library state the properties below talk about.  Values the libraries hand back
(window handle, loader result, object names, status flags, info logs, per-frame
key state and window events) come from a `World`.

Float literals are carried as rationals holding the decimal value written in
the source (`-0.5f` is `-0.5`); no floating-point arithmetic is performed by
either program.
-/

namespace OpenGLProject1

/-! ## Symbolic constants of the external headers -/

inductive Hint where
  | GLFW_CONTEXT_VERSION_MAJOR
  | GLFW_CONTEXT_VERSION_MINOR
  | GLFW_OPENGL_PROFILE
  deriving DecidableEq, Repr

inductive HintValue where
  | int (n : Int)
  | GLFW_OPENGL_CORE_PROFILE
  deriving DecidableEq, Repr

inductive Key where
  | GLFW_KEY_ESCAPE
  deriving DecidableEq, Repr

inductive KeyState where
  | GLFW_RELEASE
  | GLFW_PRESS
  deriving DecidableEq, Repr

inductive ShaderType where
  | GL_VERTEX_SHADER
  | GL_FRAGMENT_SHADER
  deriving DecidableEq, Repr

inductive StatusName where
  | GL_COMPILE_STATUS
  | GL_LINK_STATUS
  deriving DecidableEq, Repr

inductive BufferTarget where
  | GL_ARRAY_BUFFER
  deriving DecidableEq, Repr

inductive Usage where
  | GL_STATIC_DRAW
  deriving DecidableEq, Repr

inductive DataType where
  | GL_FLOAT
  deriving DecidableEq, Repr

inductive Face where
  | GL_FRONT_AND_BACK
  deriving DecidableEq, Repr

inductive PolygonMode where
  | GL_LINE
  | GL_FILL
  deriving DecidableEq, Repr

inductive ClearMask where
  | GL_COLOR_BUFFER_BIT
  deriving DecidableEq, Repr

inductive Primitive where
  | GL_TRIANGLES
  deriving DecidableEq, Repr

/-- Name of a function registered as framebuffer-size callback. -/
inductive Callback where
  | framebuffer_size_callback
  deriving DecidableEq, Repr

/-- Size of a C `float` in bytes; `sizeof(float)`. -/
def sizeofFloat : Nat := 4

/-- Size in bytes of one component of the given GL data type. -/
def DataType.bytes : DataType → Nat
  | .GL_FLOAT => sizeofFloat

/-! ## The log of library calls -/

/-- One call into the C++ stream library, GLFW, GLAD or OpenGL, with the
arguments the program passed.  `coutLine s` is `cout << s << endl`. -/
inductive Call where
  | coutLine (text : String)
  | glfwInit
  | glfwWindowHint (hint : Hint) (value : HintValue)
  | glfwCreateWindow (width height : Int) (title : String)
  | glfwTerminate
  | glfwMakeContextCurrent (window : Nat)
  | glfwSetFramebufferSizeCallback (window : Nat) (cb : Callback)
  | gladLoadGLLoader
  | glfwWindowShouldClose (window : Nat)
  | glfwGetKey (window : Nat) (key : Key)
  | glfwSetWindowShouldClose (window : Nat) (value : Bool)
  | glfwSwapBuffers (window : Nat)
  | glfwPollEvents
  | glViewport (x y width height : Int)
  | glCreateShader (type : ShaderType)
  | glShaderSource (shader : Nat) (count : Nat) (source : String)
  | glCompileShader (shader : Nat)
  | glGetShaderiv (shader : Nat) (pname : StatusName)
  | glGetShaderInfoLog (shader : Nat) (maxLength : Nat)
  | glCreateProgram
  | glAttachShader (program shader : Nat)
  | glLinkProgram (program : Nat)
  | glGetProgramiv (program : Nat) (pname : StatusName)
  | glGetProgramInfoLog (program : Nat) (maxLength : Nat)
  | glUseProgram (program : Nat)
  | glDeleteShader (shader : Nat)
  | glGenVertexArrays (n : Nat)
  | glGenBuffers (n : Nat)
  | glBindVertexArray (array : Nat)
  | glBindBuffer (target : BufferTarget) (buffer : Nat)
  | glBufferData (target : BufferTarget) (size : Nat) (data : List ℚ) (usage : Usage)
  | glVertexAttribPointer (index : Nat) (size : Nat) (type : DataType)
      (normalized : Bool) (stride : Nat) (pointer : Nat)
  | glEnableVertexAttribArray (index : Nat)
  | glPolygonMode (face : Face) (mode : PolygonMode)
  | glClearColor (red green blue alpha : ℚ)
  | glClear (mask : ClearMask)
  | glDrawArrays (mode : Primitive) (first count : Nat)
  | glDeleteVertexArrays (n : Nat) (array : Nat)
  | glDeleteBuffers (n : Nat) (buffer : Nat)
  | glDeleteProgram (program : Nat)
  deriving DecidableEq

/-- Calls into the graphics API proper (the `gl*` entry points). -/
def Call.isGraphics : Call → Bool
  | .coutLine _ => false
  | .glfwInit => false
  | .glfwWindowHint _ _ => false
  | .glfwCreateWindow _ _ _ => false
  | .glfwTerminate => false
  | .glfwMakeContextCurrent _ => false
  | .glfwSetFramebufferSizeCallback _ _ => false
  | .gladLoadGLLoader => false
  | .glfwWindowShouldClose _ => false
  | .glfwGetKey _ _ => false
  | .glfwSetWindowShouldClose _ _ => false
  | .glfwSwapBuffers _ => false
  | .glfwPollEvents => false
  | _ => true

/-- The draw calls. -/
def Call.isDraw : Call → Bool
  | .glDrawArrays _ _ _ => true
  | _ => false

/-- The calls that present or produce a frame: clear, draw and swap. -/
def Call.isFrameOutput : Call → Bool
  | .glClearColor _ _ _ _ => true
  | .glClear _ => true
  | .glDrawArrays _ _ _ => true
  | .glfwSwapBuffers _ => true
  | _ => false

/-- The diagnostic calls of the shader build: info-log fetches and prints. -/
def Call.isDiagnostic : Call → Bool
  | .coutLine _ => true
  | .glGetShaderInfoLog _ _ => true
  | .glGetProgramInfoLog _ _ => true
  | _ => false

def Call.isPolygonMode : Call → Bool
  | .glPolygonMode _ _ => true
  | _ => false

def Call.isBufferData : Call → Bool
  | .glBufferData _ _ _ _ => true
  | _ => false

/-! ## Library state and the outside world -/

/-- Data store of a buffer object. -/
structure BufferStore where
  size : Nat
  data : List ℚ
  usage : Usage
  deriving DecidableEq

/-- One vertex attribute description held by a vertex array object, with the
buffer that was bound to `GL_ARRAY_BUFFER` when it was declared. -/
structure Attrib where
  array : Nat
  index : Nat
  size : Nat
  type : DataType
  normalized : Bool
  stride : Nat
  pointer : Nat
  buffer : Nat
  deriving DecidableEq

/-- One byte of a buffer object read by vertex fetch. -/
structure Fetch where
  buffer : Nat
  vertex : Nat
  byte : Nat
  deriving DecidableEq

/-- Program-visible state: the call log, the window close flag, the registered
resize callback, the rectangle last passed to `glViewport`, the two object
bindings, buffer stores, attribute descriptions, the bytes read by draw calls,
and the global array `vertices`. -/
structure Sys where
  calls : List Call
  shouldClose : Bool
  resizeCallback : Option Callback
  viewport : Option (Int × Int × Int × Int)
  arrayBuffer : Nat
  vertexArray : Nat
  buffers : List (Nat × BufferStore)
  attribs : List Attrib
  enabled : List (Nat × Nat)
  fetched : List Fetch
  vertices : List ℚ

/-- A window event delivered during `glfwPollEvents`. -/
inductive Event where
  | close
  | framebufferSize (width height : Int)
  deriving DecidableEq

/-- What the outside world supplies during one loop iteration: the Escape key
state reported by `glfwGetKey` and the events dispatched by `glfwPollEvents`. -/
structure Frame where
  escape : KeyState
  events : List Event

/-- Everything the libraries return to the program. `window = none` is a NULL
window; `gladResult = 0` is a failed load; a status of `0` is a failed build
step. -/
structure World where
  window : Option Nat
  gladResult : Int
  vertexShader : Nat
  fragmentShader : Nat
  shaderProgram : Nat
  VAO : Nat
  VBO : Nat
  vertexStatus : Int
  fragmentStatus : Int
  linkStatus : Int
  vertexLog : List Char
  fragmentLog : List Char
  programLog : List Char
  frames : Nat → Frame

/-- Outcome of observing `main` for a bounded number of loop iterations:
either it returned with an exit code, or the loop is still running. -/
inductive Run where
  | exited (code : Int) (s : Sys)
  | running (s : Sys)

def Run.sys : Run → Sys
  | .exited _ s => s
  | .running s => s

def Run.code : Run → Option Int
  | .exited c _ => some c
  | .running _ => none

/-- Outcome of the render loop under an iteration budget. -/
inductive Loop where
  | finished (s : Sys)
  | unfinished (s : Sys)

def Loop.sys : Loop → Sys
  | .finished s => s
  | .unfinished s => s

/-! ## Library entry points -/

/-- Append a call to the log. -/
def call (c : Call) (s : Sys) : Sys := { s with calls := s.calls ++ [c] }

def coutLine (text : String) (s : Sys) : Sys := call (.coutLine text) s

def glfwInit (s : Sys) : Sys := call .glfwInit s

def glfwWindowHint (hint : Hint) (value : HintValue) (s : Sys) : Sys :=
  call (.glfwWindowHint hint value) s

def glfwCreateWindow (result : Option Nat) (width height : Int) (title : String)
    (s : Sys) : Option Nat × Sys :=
  (result, call (.glfwCreateWindow width height title) s)

def glfwTerminate (s : Sys) : Sys := call .glfwTerminate s

def glfwMakeContextCurrent (window : Nat) (s : Sys) : Sys :=
  call (.glfwMakeContextCurrent window) s

def glfwSetFramebufferSizeCallback (window : Nat) (cb : Callback) (s : Sys) : Sys :=
  { call (.glfwSetFramebufferSizeCallback window cb) s with resizeCallback := some cb }

def gladLoadGLLoader (result : Int) (s : Sys) : Int × Sys :=
  (result, call .gladLoadGLLoader s)

def glfwWindowShouldClose (window : Nat) (s : Sys) : Bool × Sys :=
  (s.shouldClose, call (.glfwWindowShouldClose window) s)

def glfwGetKey (result : KeyState) (window : Nat) (key : Key) (s : Sys) : KeyState × Sys :=
  (result, call (.glfwGetKey window key) s)

def glfwSetWindowShouldClose (window : Nat) (value : Bool) (s : Sys) : Sys :=
  { call (.glfwSetWindowShouldClose window value) s with shouldClose := value }

def glfwSwapBuffers (window : Nat) (s : Sys) : Sys := call (.glfwSwapBuffers window) s

def glViewport (x y width height : Int) (s : Sys) : Sys :=
  { call (.glViewport x y width height) s with viewport := some (x, y, width, height) }

/-- Deliver one window event: a close request raises the close flag, a
framebuffer-size event invokes the registered callback (if any). -/
def dispatch (cb : Callback → Nat → Int → Int → Sys → Sys) (window : Nat)
    (e : Event) (s : Sys) : Sys :=
  match e with
  | .close => { s with shouldClose := true }
  | .framebufferSize width height =>
    match s.resizeCallback with
    | some f => cb f window width height s
    | none => s

/-- Log the call, then deliver the pending events in order. -/
def glfwPollEvents (cb : Callback → Nat → Int → Int → Sys → Sys) (window : Nat)
    (events : List Event) (s : Sys) : Sys :=
  events.foldl (fun acc e => dispatch cb window e acc) (call .glfwPollEvents s)

def glCreateShader (result : Nat) (type : ShaderType) (s : Sys) : Nat × Sys :=
  (result, call (.glCreateShader type) s)

def glShaderSource (shader count : Nat) (source : String) (s : Sys) : Sys :=
  call (.glShaderSource shader count source) s

def glCompileShader (shader : Nat) (s : Sys) : Sys := call (.glCompileShader shader) s

def glGetShaderiv (result : Int) (shader : Nat) (pname : StatusName) (s : Sys) : Int × Sys :=
  (result, call (.glGetShaderiv shader pname) s)

/-- Copies at most `maxLength - 1` characters of the log (the last byte of the
buffer holds the terminator). -/
def glGetShaderInfoLog (log : List Char) (shader maxLength : Nat) (s : Sys) :
    List Char × Sys :=
  (log.take (maxLength - 1), call (.glGetShaderInfoLog shader maxLength) s)

def glCreateProgram (result : Nat) (s : Sys) : Nat × Sys :=
  (result, call .glCreateProgram s)

def glAttachShader (program shader : Nat) (s : Sys) : Sys :=
  call (.glAttachShader program shader) s

def glLinkProgram (program : Nat) (s : Sys) : Sys := call (.glLinkProgram program) s

def glGetProgramiv (result : Int) (program : Nat) (pname : StatusName) (s : Sys) :
    Int × Sys :=
  (result, call (.glGetProgramiv program pname) s)

def glGetProgramInfoLog (log : List Char) (program maxLength : Nat) (s : Sys) :
    List Char × Sys :=
  (log.take (maxLength - 1), call (.glGetProgramInfoLog program maxLength) s)

def glUseProgram (program : Nat) (s : Sys) : Sys := call (.glUseProgram program) s

def glDeleteShader (shader : Nat) (s : Sys) : Sys := call (.glDeleteShader shader) s

def glGenVertexArrays (result : Nat) (n : Nat) (s : Sys) : Nat × Sys :=
  (result, call (.glGenVertexArrays n) s)

def glGenBuffers (result : Nat) (n : Nat) (s : Sys) : Nat × Sys :=
  (result, call (.glGenBuffers n) s)

def glBindVertexArray (array : Nat) (s : Sys) : Sys :=
  { call (.glBindVertexArray array) s with vertexArray := array }

def glBindBuffer (target : BufferTarget) (buffer : Nat) (s : Sys) : Sys :=
  { call (.glBindBuffer target buffer) s with arrayBuffer := buffer }

/-- Replaces the store of the buffer bound to the target with the first `size`
bytes of `data`. -/
def glBufferData (target : BufferTarget) (size : Nat) (data : List ℚ) (usage : Usage)
    (s : Sys) : Sys :=
  { call (.glBufferData target size data usage) s with
    buffers := (s.arrayBuffer, ⟨size, data.take (size / sizeofFloat), usage⟩) ::
      s.buffers.filter (fun b => b.1 != s.arrayBuffer) }

/-- Records the attribute description in the bound vertex array, capturing the
buffer currently bound to `GL_ARRAY_BUFFER`. -/
def glVertexAttribPointer (index size : Nat) (type : DataType) (normalized : Bool)
    (stride pointer : Nat) (s : Sys) : Sys :=
  { call (.glVertexAttribPointer index size type normalized stride pointer) s with
    attribs := ⟨s.vertexArray, index, size, type, normalized, stride, pointer, s.arrayBuffer⟩ ::
      s.attribs.filter (fun a => !(a.array == s.vertexArray && a.index == index)) }

def glEnableVertexAttribArray (index : Nat) (s : Sys) : Sys :=
  { call (.glEnableVertexAttribArray index) s with
    enabled := (s.vertexArray, index) :: s.enabled }

def glPolygonMode (face : Face) (mode : PolygonMode) (s : Sys) : Sys :=
  call (.glPolygonMode face mode) s

def glClearColor (red green blue alpha : ℚ) (s : Sys) : Sys :=
  call (.glClearColor red green blue alpha) s

def glClear (mask : ClearMask) (s : Sys) : Sys := call (.glClear mask) s

/-- Distance in bytes between consecutive vertices of an attribute; a stride of
zero means tightly packed. -/
def Attrib.step (a : Attrib) : Nat :=
  if a.stride = 0 then a.size * a.type.bytes else a.stride

/-- Byte offsets read from the attribute's buffer for vertex `i`. -/
def Attrib.bytesOf (a : Attrib) (i : Nat) : List Nat :=
  List.range' (a.pointer + i * a.step) (a.size * a.type.bytes)

/-- Bytes read by a draw over vertices `first .. first + count - 1` through the
enabled attributes of vertex array `array`. -/
def vertexFetch (attribs : List Attrib) (enabled : List (Nat × Nat)) (array first count : Nat) :
    List Fetch :=
  (attribs.filter (fun a => a.array == array && enabled.contains (a.array, a.index))).flatMap
    (fun a => (List.range' first count).flatMap
      (fun i => (a.bytesOf i).map (fun b => (⟨a.buffer, i, b⟩ : Fetch))))

def glDrawArrays (mode : Primitive) (first count : Nat) (s : Sys) : Sys :=
  { call (.glDrawArrays mode first count) s with
    fetched := s.fetched ++ vertexFetch s.attribs s.enabled s.vertexArray first count }

def glDeleteVertexArrays (n array : Nat) (s : Sys) : Sys :=
  { call (.glDeleteVertexArrays n array) s with
    attribs := s.attribs.filter (fun a => a.array != array)
    enabled := s.enabled.filter (fun e => e.1 != array)
    vertexArray := if s.vertexArray = array then 0 else s.vertexArray }

def glDeleteBuffers (n buffer : Nat) (s : Sys) : Sys :=
  { call (.glDeleteBuffers n buffer) s with
    buffers := s.buffers.filter (fun b => b.1 != buffer)
    arrayBuffer := if s.arrayBuffer = buffer then 0 else s.arrayBuffer }

def glDeleteProgram (program : Nat) (s : Sys) : Sys := call (.glDeleteProgram program) s

/-! ## Program 1: `C04 - HelloWindow.cpp` -/

namespace C04

def ScreenFactor : Int := 2

def ScreenWidth : Int := 800 * ScreenFactor

def ScreenHeight : Int := 600 * ScreenFactor

/-- The global array `vertices`, as initialised. -/
def vertices : List ℚ :=
  [-0.5, -0.5, 0.0,
    0.5, -0.5, 0.0,
    0.0,  0.5, 0.0]

/-- State at program start. -/
def init : Sys :=
  { calls := [], shouldClose := false, resizeCallback := none, viewport := none,
    arrayBuffer := 0, vertexArray := 0, buffers := [], attribs := [], enabled := [],
    fetched := [], vertices := vertices }

def framebuffer_size_callback (_window : Nat) (width height : Int) (s : Sys) : Sys :=
  glViewport 0 0 width height s

/-- The key state reported by `glfwGetKey` is supplied as `key`. -/
def processInput (key : KeyState) (window : Nat) (s : Sys) : Sys :=
  let r := glfwGetKey key window .GLFW_KEY_ESCAPE s
  if r.1 = .GLFW_PRESS then
    glfwSetWindowShouldClose window true r.2
  else
    r.2

/-- Resolution of a registered callback name to the function of this program. -/
def callbacks : Callback → Nat → Int → Int → Sys → Sys
  | .framebuffer_size_callback => framebuffer_size_callback

/-- Body of the render loop for the inputs of one frame. -/
def loopBody (f : Frame) (window : Nat) (s : Sys) : Sys :=
  let s := processInput f.escape window s
  let s := glClearColor 0.2 0.3 0.3 1.0 s
  let s := glClear .GL_COLOR_BUFFER_BIT s
  let s := glfwSwapBuffers window s
  glfwPollEvents callbacks window f.events s

/-- The loop `while (!glfwWindowShouldClose(window))`, from iteration `i`, allowed
`fuel` evaluations of the loop condition. -/
def renderLoop (w : World) (window : Nat) : Nat → Nat → Sys → Loop
  | 0, _, s => .unfinished s
  | fuel + 1, i, s =>
    let r := glfwWindowShouldClose window s
    if r.1 then
      .finished r.2
    else
      renderLoop w window fuel (i + 1) (loopBody (w.frames i) window r.2)

def main (w : World) (fuel : Nat) : Run :=
  let s := glfwInit init
  let s := glfwWindowHint .GLFW_CONTEXT_VERSION_MAJOR (.int 3) s
  let s := glfwWindowHint .GLFW_CONTEXT_VERSION_MINOR (.int 3) s
  let s := glfwWindowHint .GLFW_OPENGL_PROFILE .GLFW_OPENGL_CORE_PROFILE s
  let r := glfwCreateWindow w.window ScreenWidth ScreenHeight "LearnOpenGL_C04" s
  match r.1 with
  | none =>
    let s := coutLine "Failed to create GLFW window" r.2
    let s := glfwTerminate s
    .exited (-1) s
  | some window =>
    let s := glfwMakeContextCurrent window r.2
    let g := gladLoadGLLoader w.gladResult s
    if g.1 = 0 then
      let s := coutLine "Failed to initialize GLAD" g.2
      .exited (-1) s
    else
      let s := glViewport 0 0 ScreenWidth ScreenHeight g.2
      let s := glfwSetFramebufferSizeCallback window .framebuffer_size_callback s
      let b := glGenBuffers w.VBO 1 s
      let VBO := b.1
      let s := glBindBuffer .GL_ARRAY_BUFFER VBO b.2
      let s := glBufferData .GL_ARRAY_BUFFER (sizeofFloat * s.vertices.length) s.vertices
        .GL_STATIC_DRAW s
      let s := glBindBuffer .GL_ARRAY_BUFFER 0 s
      match renderLoop w window fuel 0 s with
      | .unfinished s => .running s
      | .finished s =>
        let s := glfwTerminate s
        .exited 0 s

end C04

/-! ## Program 2: `main.cpp` -/

namespace C05

def ScreenFactor : Int := 2

def ScreenWidth : Int := 800 * ScreenFactor

def ScreenHeight : Int := 600 * ScreenFactor

def OnlyRenderLines : Bool := false

/-- The global array `vertices`, as initialised. -/
def vertices : List ℚ :=
  [-0.5, -0.5, 0.0,
    0.5, -0.5, 0.0,
    0.0,  0.5, 0.0]

def vertexShaderSource : String :=
  "#version 330 core\n" ++
  "layout (location = 0) in vec3 aPos;\n" ++
  "void main()\n" ++
  "\x7b\n" ++
  " gl_Position = vec4(aPos.x, aPos.y, aPos.z, 1.0);\n" ++
  "\x7d\x00"

def fragmentShaderSource : String :=
  "#version 330 core\n" ++
  "out vec4 FragColor; \n" ++
  "void main()\n" ++
  "\x7b\n" ++
  "\tFragColor = vec4(1.0f, 0.5f, 0.2f, 1.0f); \n" ++
  "\x7d\x00"

/-- State at program start. -/
def init : Sys :=
  { calls := [], shouldClose := false, resizeCallback := none, viewport := none,
    arrayBuffer := 0, vertexArray := 0, buffers := [], attribs := [], enabled := [],
    fetched := [], vertices := vertices }

def framebuffer_size_callback (_window : Nat) (width height : Int) (s : Sys) : Sys :=
  glViewport 0 0 width height s

/-- The key state reported by `glfwGetKey` is supplied as `key`. -/
def processInput (key : KeyState) (window : Nat) (s : Sys) : Sys :=
  let r := glfwGetKey key window .GLFW_KEY_ESCAPE s
  if r.1 = .GLFW_PRESS then
    glfwSetWindowShouldClose window true r.2
  else
    r.2

/-- Resolution of a registered callback name to the function of this program. -/
def callbacks : Callback → Nat → Int → Int → Sys → Sys
  | .framebuffer_size_callback => framebuffer_size_callback

/-- Body of the render loop for the inputs of one frame. -/
def loopBody (f : Frame) (window shaderProgram VAO : Nat) (s : Sys) : Sys :=
  let s := processInput f.escape window s
  let s := glClearColor 0.2 0.3 0.3 1.0 s
  let s := glClear .GL_COLOR_BUFFER_BIT s
  let s := glUseProgram shaderProgram s
  let s := glBindVertexArray VAO s
  let s := glDrawArrays .GL_TRIANGLES 0 3 s
  let s := glfwSwapBuffers window s
  glfwPollEvents callbacks window f.events s

/-- The loop `while (!glfwWindowShouldClose(window))`, from iteration `i`, allowed
`fuel` evaluations of the loop condition. -/
def renderLoop (w : World) (window shaderProgram VAO : Nat) : Nat → Nat → Sys → Loop
  | 0, _, s => .unfinished s
  | fuel + 1, i, s =>
    let r := glfwWindowShouldClose window s
    if r.1 then
      .finished r.2
    else
      renderLoop w window shaderProgram VAO fuel (i + 1)
        (loopBody (w.frames i) window shaderProgram VAO r.2)

/-- The function `main`, with the value of the macro `OnlyRenderLines` as a
parameter. -/
def mainWith (onlyRenderLines : Bool) (w : World) (fuel : Nat) : Run :=
  let s := glfwInit init
  let s := glfwWindowHint .GLFW_CONTEXT_VERSION_MAJOR (.int 3) s
  let s := glfwWindowHint .GLFW_CONTEXT_VERSION_MINOR (.int 3) s
  let s := glfwWindowHint .GLFW_OPENGL_PROFILE .GLFW_OPENGL_CORE_PROFILE s
  let r := glfwCreateWindow w.window ScreenWidth ScreenHeight "LearnOpenGL_C05" s
  match r.1 with
  | none =>
    let s := coutLine "Failed to create GLFW window" r.2
    let s := glfwTerminate s
    .exited (-1) s
  | some window =>
    let s := glfwMakeContextCurrent window r.2
    let s := glfwSetFramebufferSizeCallback window .framebuffer_size_callback s
    let g := gladLoadGLLoader w.gladResult s
    if g.1 = 0 then
      let s := coutLine "Failed to initialize GLAD" g.2
      .exited (-1) s
    else
      let s := glViewport 0 0 ScreenWidth ScreenHeight g.2
      -- vertex shader
      let c := glCreateShader w.vertexShader .GL_VERTEX_SHADER s
      let vertexShader := c.1
      let s := glShaderSource vertexShader 1 vertexShaderSource c.2
      let s := glCompileShader vertexShader s
      let q := glGetShaderiv w.vertexStatus vertexShader .GL_COMPILE_STATUS s
      let success := q.1
      let s :=
        if success = 0 then
          let l := glGetShaderInfoLog w.vertexLog vertexShader 512 q.2
          coutLine ("ERROR::SHADER::VERTEX::COMPILATION_FAILED\n" ++ String.mk l.1) l.2
        else
          q.2
      -- fragment shader
      let c := glCreateShader w.fragmentShader .GL_FRAGMENT_SHADER s
      let fragmentShader := c.1
      let s := glShaderSource fragmentShader 1 fragmentShaderSource c.2
      let s := glCompileShader fragmentShader s
      let q := glGetShaderiv w.fragmentStatus fragmentShader .GL_COMPILE_STATUS s
      let success := q.1
      let s :=
        if success = 0 then
          let l := glGetShaderInfoLog w.fragmentLog fragmentShader 512 q.2
          coutLine ("ERROR::SHADER::FRAGMENT::COMPILATION_FAILED\n" ++ String.mk l.1) l.2
        else
          q.2
      -- shader program
      let c := glCreateProgram w.shaderProgram s
      let shaderProgram := c.1
      let s := glAttachShader shaderProgram vertexShader c.2
      let s := glAttachShader shaderProgram fragmentShader s
      let s := glLinkProgram shaderProgram s
      let q := glGetProgramiv w.linkStatus shaderProgram .GL_LINK_STATUS s
      let success := q.1
      let s :=
        if success = 0 then
          let l := glGetProgramInfoLog w.programLog shaderProgram 512 q.2
          coutLine ("ERROR::SHADER::PROGRAM::LINKING_FAILED\n" ++ String.mk l.1) l.2
        else
          q.2
      let s := glUseProgram shaderProgram s
      let s := glDeleteShader vertexShader s
      let s := glDeleteShader fragmentShader s
      -- vertex array and buffer
      let a := glGenVertexArrays w.VAO 1 s
      let VAO := a.1
      let b := glGenBuffers w.VBO 1 a.2
      let VBO := b.1
      let s := glBindVertexArray VAO b.2
      let s := glBindBuffer .GL_ARRAY_BUFFER VBO s
      let s := glBufferData .GL_ARRAY_BUFFER (sizeofFloat * s.vertices.length) s.vertices
        .GL_STATIC_DRAW s
      let s := glVertexAttribPointer 0 3 .GL_FLOAT false (3 * sizeofFloat) 0 s
      let s := glEnableVertexAttribArray 0 s
      let s := glBindBuffer .GL_ARRAY_BUFFER 0 s
      let s := glBindVertexArray 0 s
      let s :=
        if onlyRenderLines then
          glPolygonMode .GL_FRONT_AND_BACK .GL_LINE s
        else
          glPolygonMode .GL_FRONT_AND_BACK .GL_FILL s
      match renderLoop w window shaderProgram VAO fuel 0 s with
      | .unfinished s => .running s
      | .finished s =>
        let s := glDeleteVertexArrays 1 VAO s
        let s := glDeleteBuffers 1 VBO s
        let s := glDeleteProgram shaderProgram s
        let s := glfwTerminate s
        .exited 0 s

/-- The function `main` as built: `OnlyRenderLines` is `false`. -/
def main (w : World) (fuel : Nat) : Run := mainWith OnlyRenderLines w fuel

end C05

/-! ## Closed forms used by the proofs -/

/-- The callback resolution both programs use: every registered name runs
`glViewport(0, 0, width, height)`. -/
def viewportCallback : Callback → Nat → Int → Int → Sys → Sys :=
  fun _ _ width height s => glViewport 0 0 width height s

/-- The `glViewport` calls the resize callback issues for a list of events. -/
def resizeCalls : List Event → List Call
  | [] => []
  | .close :: es => resizeCalls es
  | .framebufferSize width height :: es => .glViewport 0 0 width height :: resizeCalls es

/-- The viewport rectangle after the resize callback ran for a list of events. -/
def lastViewport : List Event → Option (Int × Int × Int × Int) → Option (Int × Int × Int × Int)
  | [], v => v
  | .close :: es, v => lastViewport es v
  | .framebufferSize width height :: es, _ => lastViewport es (some (0, 0, width, height))

/-- Whether a list of events holds a close request. -/
def closeRequested : List Event → Bool
  | [] => false
  | .close :: _ => true
  | .framebufferSize _ _ :: es => closeRequested es

/-- Whether the close flag is raised by the end of an iteration that was entered
with the flag down. -/
def frameCloses (f : Frame) : Bool :=
  decide (f.escape = .GLFW_PRESS) || closeRequested f.events

def Loop.done : Loop → Bool
  | .finished _ => true
  | .unfinished _ => false

/-- Whether the loop exits within `fuel` evaluations of its condition. -/
def loopDone (frames : Nat → Frame) : Nat → Nat → Bool → Bool
  | 0, _, _ => false
  | fuel + 1, i, closed =>
    if closed then true else loopDone frames fuel (i + 1) (frameCloses (frames i))

/-- Value of the close flag when the observation of the loop stops. -/
def loopFlag (frames : Nat → Frame) : Nat → Nat → Bool → Bool
  | 0, _, closed => closed
  | fuel + 1, i, closed =>
    if closed then true else loopFlag frames fuel (i + 1) (frameCloses (frames i))

/-- Number of loop bodies executed within `fuel` evaluations of the condition. -/
def loopIterations (frames : Nat → Frame) : Nat → Nat → Bool → Nat
  | 0, _, _ => 0
  | fuel + 1, i, closed =>
    if closed then 0 else loopIterations frames fuel (i + 1) (frameCloses (frames i)) + 1

namespace C04

/-- Calls of one iteration of the loop body. -/
def frameCalls (f : Frame) (window : Nat) : List Call :=
  [.glfwGetKey window .GLFW_KEY_ESCAPE] ++
  (if f.escape = .GLFW_PRESS then [.glfwSetWindowShouldClose window true] else []) ++
  [.glClearColor 0.2 0.3 0.3 1.0, .glClear .GL_COLOR_BUFFER_BIT,
   .glfwSwapBuffers window, .glfwPollEvents] ++
  resizeCalls f.events

/-- Calls of the loop: each condition evaluation, followed by the body when the
flag is down. -/
def loopCalls (frames : Nat → Frame) (window : Nat) : Nat → Nat → Bool → List Call
  | 0, _, _ => []
  | fuel + 1, i, closed =>
    .glfwWindowShouldClose window ::
      (if closed then []
       else frameCalls (frames i) window ++
         loopCalls frames window fuel (i + 1) (frameCloses (frames i)))

end C04

namespace C05

/-- Calls of one iteration of the loop body. -/
def frameCalls (f : Frame) (window shaderProgram VAO : Nat) : List Call :=
  [.glfwGetKey window .GLFW_KEY_ESCAPE] ++
  (if f.escape = .GLFW_PRESS then [.glfwSetWindowShouldClose window true] else []) ++
  [.glClearColor 0.2 0.3 0.3 1.0, .glClear .GL_COLOR_BUFFER_BIT,
   .glUseProgram shaderProgram, .glBindVertexArray VAO, .glDrawArrays .GL_TRIANGLES 0 3,
   .glfwSwapBuffers window, .glfwPollEvents] ++
  resizeCalls f.events

/-- Calls of the loop: each condition evaluation, followed by the body when the
flag is down. -/
def loopCalls (frames : Nat → Frame) (window shaderProgram VAO : Nat) : Nat → Nat → Bool → List Call
  | 0, _, _ => []
  | fuel + 1, i, closed =>
    .glfwWindowShouldClose window ::
      (if closed then []
       else frameCalls (frames i) window shaderProgram VAO ++
         loopCalls frames window shaderProgram VAO fuel (i + 1) (frameCloses (frames i)))

end C05

namespace C04

/-- Calls issued up to and including window creation. -/
def bootCalls : List Call :=
  [.glfwInit,
   .glfwWindowHint .GLFW_CONTEXT_VERSION_MAJOR (.int 3),
   .glfwWindowHint .GLFW_CONTEXT_VERSION_MINOR (.int 3),
   .glfwWindowHint .GLFW_OPENGL_PROFILE .GLFW_OPENGL_CORE_PROFILE,
   .glfwCreateWindow 1600 1200 "LearnOpenGL_C04"]

/-- Calls issued before the loop on a run that reaches it. -/
def setupCalls (w : World) (window : Nat) : List Call :=
  bootCalls ++
  [.glfwMakeContextCurrent window,
   .gladLoadGLLoader,
   .glViewport 0 0 1600 1200,
   .glfwSetFramebufferSizeCallback window .framebuffer_size_callback,
   .glGenBuffers 1,
   .glBindBuffer .GL_ARRAY_BUFFER w.VBO,
   .glBufferData .GL_ARRAY_BUFFER 36 vertices .GL_STATIC_DRAW,
   .glBindBuffer .GL_ARRAY_BUFFER 0]

/-- State at the first evaluation of the loop condition. -/
def entry (w : World) (window : Nat) : Sys :=
  { calls := setupCalls w window, shouldClose := false,
    resizeCallback := some .framebuffer_size_callback,
    viewport := some (0, 0, 1600, 1200), arrayBuffer := 0, vertexArray := 0,
    buffers := [(w.VBO, ⟨36, vertices, .GL_STATIC_DRAW⟩)], attribs := [], enabled := [],
    fetched := [], vertices := vertices }

end C04

namespace C05

/-- Calls issued up to and including window creation. -/
def bootCalls : List Call :=
  [.glfwInit,
   .glfwWindowHint .GLFW_CONTEXT_VERSION_MAJOR (.int 3),
   .glfwWindowHint .GLFW_CONTEXT_VERSION_MINOR (.int 3),
   .glfwWindowHint .GLFW_OPENGL_PROFILE .GLFW_OPENGL_CORE_PROFILE,
   .glfwCreateWindow 1600 1200 "LearnOpenGL_C05"]

/-- The info-log fetch and print issued after a status query that reported
failure; nothing after one that reported success. -/
def shaderDiag (status : Int) (shader : Nat) (stage : String) (log : List Char) : List Call :=
  if status = 0 then
    [.glGetShaderInfoLog shader 512, .coutLine (stage ++ String.mk (log.take 511))]
  else []

def programDiag (status : Int) (program : Nat) (stage : String) (log : List Char) : List Call :=
  if status = 0 then
    [.glGetProgramInfoLog program 512, .coutLine (stage ++ String.mk (log.take 511))]
  else []

/-- Calls of the shader build. -/
def shaderCalls (w : World) : List Call :=
  [.glCreateShader .GL_VERTEX_SHADER,
   .glShaderSource w.vertexShader 1 vertexShaderSource,
   .glCompileShader w.vertexShader,
   .glGetShaderiv w.vertexShader .GL_COMPILE_STATUS] ++
  shaderDiag w.vertexStatus w.vertexShader "ERROR::SHADER::VERTEX::COMPILATION_FAILED\n"
    w.vertexLog ++
  [.glCreateShader .GL_FRAGMENT_SHADER,
   .glShaderSource w.fragmentShader 1 fragmentShaderSource,
   .glCompileShader w.fragmentShader,
   .glGetShaderiv w.fragmentShader .GL_COMPILE_STATUS] ++
  shaderDiag w.fragmentStatus w.fragmentShader "ERROR::SHADER::FRAGMENT::COMPILATION_FAILED\n"
    w.fragmentLog ++
  [.glCreateProgram,
   .glAttachShader w.shaderProgram w.vertexShader,
   .glAttachShader w.shaderProgram w.fragmentShader,
   .glLinkProgram w.shaderProgram,
   .glGetProgramiv w.shaderProgram .GL_LINK_STATUS] ++
  programDiag w.linkStatus w.shaderProgram "ERROR::SHADER::PROGRAM::LINKING_FAILED\n"
    w.programLog ++
  [.glUseProgram w.shaderProgram,
   .glDeleteShader w.vertexShader,
   .glDeleteShader w.fragmentShader]

/-- Calls that set up the vertex array and the buffer. -/
def arrayCalls (w : World) : List Call :=
  [.glGenVertexArrays 1,
   .glGenBuffers 1,
   .glBindVertexArray w.VAO,
   .glBindBuffer .GL_ARRAY_BUFFER w.VBO,
   .glBufferData .GL_ARRAY_BUFFER 36 vertices .GL_STATIC_DRAW,
   .glVertexAttribPointer 0 3 .GL_FLOAT false 12 0,
   .glEnableVertexAttribArray 0,
   .glBindBuffer .GL_ARRAY_BUFFER 0,
   .glBindVertexArray 0]

/-- Calls issued before the shader build on a run that reaches it. -/
def contextCalls (window : Nat) : List Call :=
  bootCalls ++
  [.glfwMakeContextCurrent window,
   .glfwSetFramebufferSizeCallback window .framebuffer_size_callback,
   .gladLoadGLLoader,
   .glViewport 0 0 1600 1200]

/-- Calls issued before the loop on a run that reaches it. -/
def setupCalls (onlyRenderLines : Bool) (w : World) (window : Nat) : List Call :=
  contextCalls window ++ shaderCalls w ++ arrayCalls w ++
  [.glPolygonMode .GL_FRONT_AND_BACK (if onlyRenderLines then .GL_LINE else .GL_FILL)]

/-- State at the first evaluation of the loop condition. -/
def entry (onlyRenderLines : Bool) (w : World) (window : Nat) : Sys :=
  { calls := setupCalls onlyRenderLines w window, shouldClose := false,
    resizeCallback := some .framebuffer_size_callback,
    viewport := some (0, 0, 1600, 1200), arrayBuffer := 0, vertexArray := 0,
    buffers := [(w.VBO, ⟨36, vertices, .GL_STATIC_DRAW⟩)],
    attribs := [⟨w.VAO, 0, 3, .GL_FLOAT, false, 12, 0, w.VBO⟩],
    enabled := [(w.VAO, 0)],
    fetched := [], vertices := vertices }

/-- The calls after the loop. -/
def teardown (w : World) (s : Sys) : Sys :=
  glfwTerminate (glDeleteProgram w.shaderProgram (glDeleteBuffers 1 w.VBO
    (glDeleteVertexArrays 1 w.VAO s)))

end C05

/-- The calls that can be issued from inside the render loop. -/
def Call.isLoopCall : Call → Bool
  | .glfwWindowShouldClose _ => true
  | .glfwGetKey _ _ => true
  | .glfwSetWindowShouldClose _ _ => true
  | .glClearColor _ _ _ _ => true
  | .glClear _ => true
  | .glUseProgram _ => true
  | .glBindVertexArray _ => true
  | .glDrawArrays _ _ _ => true
  | .glfwSwapBuffers _ => true
  | .glfwPollEvents => true
  | .glViewport _ _ _ _ => true
  | _ => false

namespace C04

/-- The calls after the loop. -/
def teardownCalls : List Call := [.glfwTerminate]

end C04

namespace C05

/-- The calls after the loop. -/
def teardownCalls (w : World) : List Call :=
  [.glDeleteVertexArrays 1 w.VAO, .glDeleteBuffers 1 w.VBO, .glDeleteProgram w.shaderProgram,
   .glfwTerminate]

end C05

/-- The triangle of the specification: `(-1/2, -1/2, 0)`, `(1/2, -1/2, 0)`,
`(0, 1/2, 0)`, as nine consecutive components. -/
def expectedVertices : List ℚ := [-1/2, -1/2, 0, 1/2, -1/2, 0, 0, 1/2, 0]

/-- The same world with all three build-status queries reporting success. -/
def allSucceed (w : World) : World :=
  { w with vertexStatus := 1, fragmentStatus := 1, linkStatus := 1 }

/-- The calls program 1 never issues: draws, vertex-array binds and program
binds. -/
def Call.isDrawOrBind : Call → Bool
  | .glDrawArrays _ _ _ => true
  | .glBindVertexArray _ => true
  | .glUseProgram _ => true
  | _ => false

/-- The calls that declare or enable a vertex attribute. -/
def Call.isAttribSetup : Call → Bool
  | .glVertexAttribPointer _ _ _ _ _ _ => true
  | .glEnableVertexAttribArray _ => true
  | _ => false

/-- Whether `text` begins with `marker`. -/
def beginsWith : List Char → List Char → Bool
  | [], _ => true
  | _ :: _, [] => false
  | m :: ms, c :: cs => m == c && beginsWith ms cs

/-- The text that follows the first occurrence of `marker`. -/
def afterMarker (marker : List Char) : List Char → Option (List Char)
  | [] => none
  | c :: cs =>
    if beginsWith marker (c :: cs) then some ((c :: cs).drop marker.length)
    else afterMarker marker cs

/-- The input location a GLSL source declares with `layout (location = N)`. -/
def declaredLocation (source : String) : Option Nat :=
  match afterMarker "layout (location = ".toList source.toList with
  | none => none
  | some rest =>
    match rest.takeWhile Char.isDigit with
    | [] => none
    | ds => some (ds.foldl (fun n c => 10 * n + (c.toNat - '0'.toNat)) 0)

/-- Bytes `0 .. 35` of a buffer, byte `b` read for vertex `b / 12`. -/
def triangleBytes (buffer : Nat) : List Fetch :=
  (List.range 36).map (fun b => (⟨buffer, b / 12, b⟩ : Fetch))

/-! ## Sample worlds -/

/-- A frame in which Escape is down and no event is pending. -/
def escapeFrame : Frame := { escape := .GLFW_PRESS, events := [] }

/-- A world in which every library call succeeds and Escape is held down from
the first frame. -/
def worldOk : World :=
  { window := some 1, gladResult := 1, vertexShader := 1, fragmentShader := 2,
    shaderProgram := 3, VAO := 1, VBO := 1, vertexStatus := 1, fragmentStatus := 1,
    linkStatus := 1, vertexLog := [], fragmentLog := [], programLog := [],
    frames := fun _ => escapeFrame }

/-- The start state of program 2 after the resize callback was registered. -/
def registered : Sys :=
  glfwSetFramebufferSizeCallback 1 .framebuffer_size_callback C05.init

/-- As `worldOk`, but window creation returns NULL. -/
def worldNoWindow : World := { worldOk with window := none }

/-- As `worldOk`, but the function-pointer loader reports failure. -/
def worldNoGlad : World := { worldOk with gladResult := 0 }

/-- As `worldOk`, but the vertex shader fails to compile with a short log. -/
def worldBadShader : World :=
  { worldOk with vertexStatus := 0, vertexLog := ['e', 'r', 'r'] }

/-! ## Supporting lemmas -/

theorem C04.callbacks_eq_p1 : C04.callbacks = viewportCallback := by
  funext c; cases c; rfl

theorem C05.callbacks_eq_p2 : C05.callbacks = viewportCallback := by
  funext c; cases c; rfl

theorem foldl_dispatch (window : Nat) (evs : List Event) (s : Sys) (c : Callback)
    (h : s.resizeCallback = some c) :
    evs.foldl (fun acc e => dispatch viewportCallback window e acc) s =
      { s with calls := s.calls ++ resizeCalls evs
               shouldClose := s.shouldClose || closeRequested evs
               viewport := lastViewport evs s.viewport } := by
  induction evs generalizing s with
  | nil => cases s; simp [resizeCalls, closeRequested, lastViewport]
  | cons e es ih =>
    cases e with
    | close =>
      rw [List.foldl_cons, ih _ (by simpa [dispatch] using h)]
      cases s; simp [dispatch, resizeCalls, closeRequested, lastViewport]
    | framebufferSize width height =>
      rw [List.foldl_cons, ih _ (by simp [dispatch, h, viewportCallback, glViewport, call])]
      cases s
      simp only [] at h
      simp [dispatch, h, viewportCallback, glViewport, call, resizeCalls, closeRequested,
        lastViewport]

theorem glfwPollEvents_eq (window : Nat) (evs : List Event) (s : Sys) (c : Callback)
    (h : s.resizeCallback = some c) :
    glfwPollEvents viewportCallback window evs s =
      { s with calls := s.calls ++ .glfwPollEvents :: resizeCalls evs
               shouldClose := s.shouldClose || closeRequested evs
               viewport := lastViewport evs s.viewport } := by
  unfold glfwPollEvents
  rw [foldl_dispatch window evs _ c (by simpa [call] using h)]
  cases s; simp [call]

namespace C04

theorem loopBody_eq_p1 (f : Frame) (window : Nat) (s : Sys) (c : Callback)
    (h : s.resizeCallback = some c) :
    loopBody f window s =
      { s with calls := s.calls ++ frameCalls f window
               shouldClose := (decide (f.escape = .GLFW_PRESS) || s.shouldClose) ||
                 closeRequested f.events
               viewport := lastViewport f.events s.viewport } := by
  unfold loopBody
  rw [callbacks_eq_p1]
  simp only []
  rw [glfwPollEvents_eq window f.events _ c (by
    simp only [processInput, glfwGetKey, glfwSetWindowShouldClose, glClearColor, glClear,
      glfwSwapBuffers, call]
    split <;> simpa using h)]
  cases s
  cases hk : f.escape <;>
    simp [processInput, glfwGetKey, glfwSetWindowShouldClose, glClearColor, glClear,
      glfwSwapBuffers, call, frameCalls, hk]

/-- Closed form of the loop: log, exit flag and the untouched state. -/
theorem renderLoop_eq_p1 (w : World) (window : Nat) (c : Callback) (fuel i : Nat) (s : Sys)
    (h : s.resizeCallback = some c) :
    (renderLoop w window fuel i s).sys.calls =
        s.calls ++ loopCalls w.frames window fuel i s.shouldClose ∧
      (renderLoop w window fuel i s).done = loopDone w.frames fuel i s.shouldClose ∧
      (renderLoop w window fuel i s).sys.shouldClose = loopFlag w.frames fuel i s.shouldClose ∧
      (renderLoop w window fuel i s).sys.buffers = s.buffers ∧
      (renderLoop w window fuel i s).sys.vertices = s.vertices ∧
      (renderLoop w window fuel i s).sys.fetched = s.fetched := by
  induction fuel generalizing i s with
  | zero => simp [renderLoop, Loop.sys, Loop.done, loopCalls, loopDone, loopFlag]
  | succ n ih =>
    cases hc : s.shouldClose with
    | true =>
      simp [renderLoop, glfwWindowShouldClose, hc, Loop.sys, Loop.done, loopCalls, loopDone,
        loopFlag, call]
    | false =>
      have hb := loopBody_eq_p1 (w.frames i) window (call (.glfwWindowShouldClose window) s) c
        (by simpa [call] using h)
      have := ih (i + 1) (loopBody (w.frames i) window (call (.glfwWindowShouldClose window) s))
        (by rw [hb]; simpa [call] using h)
      simp only [renderLoop, glfwWindowShouldClose, hc, loopCalls, loopDone, loopFlag]
      simp only [Bool.false_eq_true, if_false]
      rw [hb] at this ⊢
      simpa [call, hc, frameCloses] using this

end C04

namespace C05

theorem loopBody_eq_p2 (f : Frame) (window shaderProgram VAO : Nat) (s : Sys) (c : Callback)
    (h : s.resizeCallback = some c) :
    loopBody f window shaderProgram VAO s =
      { s with calls := s.calls ++ frameCalls f window shaderProgram VAO
               shouldClose := (decide (f.escape = .GLFW_PRESS) || s.shouldClose) ||
                 closeRequested f.events
               viewport := lastViewport f.events s.viewport
               vertexArray := VAO
               fetched := s.fetched ++ vertexFetch s.attribs s.enabled VAO 0 3 } := by
  unfold loopBody
  rw [callbacks_eq_p2]
  simp only []
  rw [glfwPollEvents_eq window f.events _ c (by
    simp only [processInput, glfwGetKey, glfwSetWindowShouldClose, glClearColor, glClear,
      glfwSwapBuffers, glUseProgram, glBindVertexArray, glDrawArrays, call]
    split <;> simpa using h)]
  cases s
  cases hk : f.escape <;>
    simp [processInput, glfwGetKey, glfwSetWindowShouldClose, glClearColor, glClear,
      glfwSwapBuffers, glUseProgram, glBindVertexArray, glDrawArrays, call, frameCalls, hk]

/-- Closed form of the loop: log, exit flag, the untouched state, and the bytes
fetched by the draw calls. -/
theorem renderLoop_eq_p2 (w : World) (window shaderProgram VAO : Nat) (c : Callback)
    (fuel i : Nat) (s : Sys) (h : s.resizeCallback = some c) :
    (renderLoop w window shaderProgram VAO fuel i s).sys.calls =
        s.calls ++ loopCalls w.frames window shaderProgram VAO fuel i s.shouldClose ∧
      (renderLoop w window shaderProgram VAO fuel i s).done = loopDone w.frames fuel i s.shouldClose ∧
      (renderLoop w window shaderProgram VAO fuel i s).sys.shouldClose =
        loopFlag w.frames fuel i s.shouldClose ∧
      (renderLoop w window shaderProgram VAO fuel i s).sys.buffers = s.buffers ∧
      (renderLoop w window shaderProgram VAO fuel i s).sys.attribs = s.attribs ∧
      (renderLoop w window shaderProgram VAO fuel i s).sys.enabled = s.enabled ∧
      (renderLoop w window shaderProgram VAO fuel i s).sys.vertices = s.vertices ∧
      (renderLoop w window shaderProgram VAO fuel i s).sys.fetched =
        s.fetched ++ (List.replicate (loopIterations w.frames fuel i s.shouldClose)
          (vertexFetch s.attribs s.enabled VAO 0 3)).flatten := by
  induction fuel generalizing i s with
  | zero => simp [renderLoop, Loop.sys, Loop.done, loopCalls, loopDone, loopFlag, loopIterations]
  | succ n ih =>
    cases hc : s.shouldClose with
    | true =>
      simp [renderLoop, glfwWindowShouldClose, hc, Loop.sys, Loop.done, loopCalls, loopDone,
        loopFlag, loopIterations, call]
    | false =>
      have hb := loopBody_eq_p2 (w.frames i) window shaderProgram VAO
        (call (.glfwWindowShouldClose window) s) c (by simpa [call] using h)
      have := ih (i + 1) (loopBody (w.frames i) window shaderProgram VAO
        (call (.glfwWindowShouldClose window) s)) (by rw [hb]; simpa [call] using h)
      simp only [renderLoop, glfwWindowShouldClose, hc, loopCalls, loopDone, loopFlag,
        loopIterations]
      simp only [Bool.false_eq_true, if_false]
      rw [hb] at this ⊢
      simpa [call, hc, frameCloses, List.replicate_succ, List.replicate_add] using this

end C05

namespace C04

theorem main_window_failure (w : World) (fuel : Nat) (h : w.window = none) :
    main w fuel = .exited (-1)
      { init with calls := bootCalls ++
          [.coutLine "Failed to create GLFW window", .glfwTerminate] } := by
  simp [main, h, glfwInit, glfwWindowHint, glfwCreateWindow, coutLine, glfwTerminate, call,
    init, bootCalls, ScreenWidth, ScreenHeight, ScreenFactor]

theorem main_glad_failure (w : World) (fuel window : Nat) (h : w.window = some window)
    (hg : w.gladResult = 0) :
    main w fuel = .exited (-1)
      { init with calls := bootCalls ++
          [.glfwMakeContextCurrent window, .gladLoadGLLoader,
           .coutLine "Failed to initialize GLAD"] } := by
  simp [main, h, hg, glfwInit, glfwWindowHint, glfwCreateWindow, coutLine,
    glfwMakeContextCurrent, gladLoadGLLoader, call, init, bootCalls, ScreenWidth,
    ScreenHeight, ScreenFactor]

theorem main_reach (w : World) (fuel window : Nat) (h : w.window = some window)
    (hg : w.gladResult ≠ 0) :
    main w fuel =
      match renderLoop w window fuel 0 (entry w window) with
      | .unfinished s => .running s
      | .finished s => .exited 0 (glfwTerminate s) := by
  have hl : sizeofFloat * vertices.length = 36 := by simp [sizeofFloat, vertices]
  have hv : List.take (36 / sizeofFloat) vertices = vertices := by simp [sizeofFloat, vertices]
  simp only [main, h, hg, glfwInit, glfwWindowHint, glfwCreateWindow, glfwMakeContextCurrent,
    gladLoadGLLoader, glViewport, glfwSetFramebufferSizeCallback, glGenBuffers, glBindBuffer,
    glBufferData, call, init, if_false, hl, hv]
  simp [entry, setupCalls, bootCalls, ScreenWidth, ScreenHeight, ScreenFactor]

end C04

namespace C05

theorem mainWith_window_failure (b : Bool) (w : World) (fuel : Nat) (h : w.window = none) :
    mainWith b w fuel = .exited (-1)
      { init with calls := bootCalls ++
          [.coutLine "Failed to create GLFW window", .glfwTerminate] } := by
  simp [mainWith, h, glfwInit, glfwWindowHint, glfwCreateWindow, coutLine, glfwTerminate, call,
    init, bootCalls, ScreenWidth, ScreenHeight, ScreenFactor]

theorem mainWith_glad_failure (b : Bool) (w : World) (fuel window : Nat)
    (h : w.window = some window) (hg : w.gladResult = 0) :
    mainWith b w fuel = .exited (-1)
      { init with calls := bootCalls ++
                    [.glfwMakeContextCurrent window,
                     .glfwSetFramebufferSizeCallback window .framebuffer_size_callback,
                     .gladLoadGLLoader,
                     .coutLine "Failed to initialize GLAD"]
                  resizeCallback := some .framebuffer_size_callback } := by
  simp [mainWith, h, hg, glfwInit, glfwWindowHint, glfwCreateWindow, coutLine,
    glfwMakeContextCurrent, glfwSetFramebufferSizeCallback, gladLoadGLLoader, call, init,
    bootCalls, ScreenWidth, ScreenHeight, ScreenFactor]

theorem mainWith_reach (b : Bool) (w : World) (fuel window : Nat) (h : w.window = some window)
    (hg : w.gladResult ≠ 0) :
    mainWith b w fuel =
      match renderLoop w window w.shaderProgram w.VAO fuel 0 (entry b w window) with
      | .unfinished s => .running s
      | .finished s => .exited 0 (teardown w s) := by
  have hl : sizeofFloat * vertices.length = 36 := by simp [sizeofFloat, vertices]
  have hv : List.take (36 / sizeofFloat) vertices = vertices := by simp [sizeofFloat, vertices]
  simp only [mainWith, h, hg, glfwInit, glfwWindowHint, glfwCreateWindow,
    glfwMakeContextCurrent, gladLoadGLLoader, glViewport, glfwSetFramebufferSizeCallback,
    glCreateShader, glShaderSource, glCompileShader, glGetShaderiv, glGetShaderInfoLog,
    glCreateProgram, glAttachShader, glLinkProgram, glGetProgramiv, glGetProgramInfoLog,
    glUseProgram, glDeleteShader, glGenVertexArrays, glGenBuffers, glBindVertexArray,
    glBindBuffer, glBufferData, glVertexAttribPointer, glEnableVertexAttribArray,
    glPolygonMode, coutLine, call, init, if_false, hl, hv, teardown]
  have hl4 : 4 * vertices.length = 36 := by simp [vertices]
  have hv9 : List.take 9 vertices = vertices := by simp [vertices]
  cases b <;> by_cases h1 : w.vertexStatus = 0 <;> by_cases h2 : w.fragmentStatus = 0 <;>
    by_cases h3 : w.linkStatus = 0 <;>
    simp [entry, setupCalls, contextCalls, shaderCalls, arrayCalls, shaderDiag, programDiag,
      bootCalls, ScreenWidth, ScreenHeight, ScreenFactor, sizeofFloat, h1, h2, h3, hl4, hv9]

end C05

theorem closeRequested_eq_false (evs : List Event) :
    closeRequested evs = false ↔ Event.close ∉ evs := by
  induction evs with
  | nil => simp [closeRequested]
  | cons e es ih => cases e <;> simp [closeRequested, ih]

theorem resizeCalls_mem (evs : List Event) (c : Call) (h : c ∈ resizeCalls evs) :
    ∃ width height, c = .glViewport 0 0 width height := by
  induction evs with
  | nil => simp [resizeCalls] at h
  | cons e es ih =>
    cases e with
    | close => exact ih (by simpa [resizeCalls] using h)
    | framebufferSize width height =>
      simp only [resizeCalls, List.mem_cons] at h
      rcases h with h | h
      · exact ⟨width, height, h⟩
      · exact ih h

namespace C04

theorem frameCalls_mem_p1 (f : Frame) (window : Nat) (c : Call) (h : c ∈ frameCalls f window) :
    c = .glfwGetKey window .GLFW_KEY_ESCAPE ∨ c = .glfwSetWindowShouldClose window true ∨
    c = .glClearColor 0.2 0.3 0.3 1.0 ∨ c = .glClear .GL_COLOR_BUFFER_BIT ∨
    c = .glfwSwapBuffers window ∨ c = .glfwPollEvents ∨
    ∃ width height, c = .glViewport 0 0 width height := by
  simp only [frameCalls, List.mem_append, List.mem_cons, List.mem_singleton] at h
  rcases h with ((h | h) | h) | h
  · simp at h; simp [h]
  · split at h <;> simp at h; simp [h]
  · simp at h; rcases h with h | h | h | h <;> simp [h]
  · exact Or.inr (Or.inr (Or.inr (Or.inr (Or.inr (Or.inr (resizeCalls_mem _ _ h))))))

theorem loopCalls_mem_p1 (w : World) (window fuel i : Nat) (closed : Bool) (c : Call)
    (h : c ∈ loopCalls w.frames window fuel i closed) :
    c = .glfwWindowShouldClose window ∨ ∃ j, c ∈ frameCalls (w.frames j) window := by
  induction fuel generalizing i closed with
  | zero => simp [loopCalls] at h
  | succ n ih =>
    simp only [loopCalls, List.mem_cons] at h
    rcases h with h | h
    · exact Or.inl h
    · cases closed with
      | true => simp at h
      | false =>
        simp only [Bool.false_eq_true, if_false, List.mem_append] at h
        rcases h with h | h
        · exact Or.inr ⟨i, h⟩
        · exact ih _ _ h

theorem loopCalls_range_p1 (w : World) (window fuel i : Nat) (closed : Bool) :
    loopCalls w.frames window fuel i closed =
      (List.range' i (loopIterations w.frames fuel i closed)).flatMap
        (fun j => .glfwWindowShouldClose window :: frameCalls (w.frames j) window) ++
      (if loopDone w.frames fuel i closed then [.glfwWindowShouldClose window] else []) := by
  induction fuel generalizing i closed with
  | zero => simp [loopCalls, loopIterations, loopDone]
  | succ n ih =>
    cases closed with
    | true => simp [loopCalls, loopIterations, loopDone]
    | false =>
      simp [loopCalls, loopIterations, loopDone, ih, List.range'_succ]

/-- What a run that gets past the loader looks like after `fuel` evaluations of
the loop condition. -/
theorem main_run (w : World) (fuel window : Nat) (hw : w.window = some window)
    (hg : w.gladResult ≠ 0) :
    (main w fuel).code = (if loopDone w.frames fuel 0 false then some 0 else none) ∧
    (main w fuel).sys.calls = setupCalls w window ++ loopCalls w.frames window fuel 0 false ++
      (if loopDone w.frames fuel 0 false then teardownCalls else []) ∧
    (main w fuel).sys.shouldClose = loopFlag w.frames fuel 0 false ∧
    (main w fuel).sys.vertices = vertices ∧
    (main w fuel).sys.buffers = [(w.VBO, ⟨36, vertices, .GL_STATIC_DRAW⟩)] ∧
    (main w fuel).sys.fetched = [] := by
  rw [main_reach w fuel window hw hg]
  have h := renderLoop_eq_p1 w window .framebuffer_size_callback fuel 0 (entry w window) rfl
  generalize renderLoop w window fuel 0 (entry w window) = R at h
  obtain ⟨h1, h2, h3, h4, h5, h6⟩ := h
  cases R with
  | finished s =>
    simp only [Loop.sys, Loop.done] at h1 h2 h3 h4 h5 h6
    have hd : loopDone w.frames fuel 0 false = true := h2.symm
    simp [Run.code, Run.sys, glfwTerminate, call, hd, h1, h3, h4, h5, h6, entry, teardownCalls]
  | unfinished s =>
    simp only [Loop.sys, Loop.done] at h1 h2 h3 h4 h5 h6
    have hd : loopDone w.frames fuel 0 false = false := h2.symm
    simp [Run.code, Run.sys, hd, h1, h3, h4, h5, h6, entry]

end C04

namespace C05

theorem frameCalls_mem_p2 (f : Frame) (window shaderProgram VAO : Nat) (c : Call)
    (h : c ∈ frameCalls f window shaderProgram VAO) :
    c = .glfwGetKey window .GLFW_KEY_ESCAPE ∨ c = .glfwSetWindowShouldClose window true ∨
    c = .glClearColor 0.2 0.3 0.3 1.0 ∨ c = .glClear .GL_COLOR_BUFFER_BIT ∨
    c = .glUseProgram shaderProgram ∨ c = .glBindVertexArray VAO ∨
    c = .glDrawArrays .GL_TRIANGLES 0 3 ∨
    c = .glfwSwapBuffers window ∨ c = .glfwPollEvents ∨
    ∃ width height, c = .glViewport 0 0 width height := by
  simp only [frameCalls, List.mem_append, List.mem_cons, List.mem_singleton] at h
  rcases h with ((h | h) | h) | h
  · simp at h; simp [h]
  · split at h <;> simp at h; simp [h]
  · simp at h; rcases h with h | h | h | h | h | h | h <;> simp [h]
  · exact Or.inr (Or.inr (Or.inr (Or.inr (Or.inr (Or.inr (Or.inr (Or.inr (Or.inr
      (resizeCalls_mem _ _ h)))))))))

theorem loopCalls_mem_p2 (w : World) (window shaderProgram VAO fuel i : Nat) (closed : Bool)
    (c : Call) (h : c ∈ loopCalls w.frames window shaderProgram VAO fuel i closed) :
    c = .glfwWindowShouldClose window ∨
      ∃ j, c ∈ frameCalls (w.frames j) window shaderProgram VAO := by
  induction fuel generalizing i closed with
  | zero => simp [loopCalls] at h
  | succ n ih =>
    simp only [loopCalls, List.mem_cons] at h
    rcases h with h | h
    · exact Or.inl h
    · cases closed with
      | true => simp at h
      | false =>
        simp only [Bool.false_eq_true, if_false, List.mem_append] at h
        rcases h with h | h
        · exact Or.inr ⟨i, h⟩
        · exact ih _ _ h

theorem loopCalls_isLoopCall_p2 (w : World) (window shaderProgram VAO fuel i : Nat)
    (closed : Bool) (c : Call) (h : c ∈ loopCalls w.frames window shaderProgram VAO fuel i closed) :
    c.isLoopCall = true := by
  rcases loopCalls_mem_p2 _ _ _ _ _ _ _ _ h with h | ⟨j, h⟩
  · simp [h, Call.isLoopCall]
  · rcases frameCalls_mem_p2 _ _ _ _ _ h with h | h | h | h | h | h | h | h | h | ⟨a, b, h⟩ <;>
      simp [h, Call.isLoopCall]

theorem loopCalls_range_p2 (w : World) (window shaderProgram VAO fuel i : Nat) (closed : Bool) :
    loopCalls w.frames window shaderProgram VAO fuel i closed =
      (List.range' i (loopIterations w.frames fuel i closed)).flatMap
        (fun j => .glfwWindowShouldClose window ::
          frameCalls (w.frames j) window shaderProgram VAO) ++
      (if loopDone w.frames fuel i closed then [.glfwWindowShouldClose window] else []) := by
  induction fuel generalizing i closed with
  | zero => simp [loopCalls, loopIterations, loopDone]
  | succ n ih =>
    cases closed with
    | true => simp [loopCalls, loopIterations, loopDone]
    | false =>
      simp [loopCalls, loopIterations, loopDone, ih, List.range'_succ]

/-- What a run that gets past the loader looks like after `fuel` evaluations of
the loop condition. -/
theorem mainWith_run (b : Bool) (w : World) (fuel window : Nat) (hw : w.window = some window)
    (hg : w.gladResult ≠ 0) :
    (mainWith b w fuel).code = (if loopDone w.frames fuel 0 false then some 0 else none) ∧
    (mainWith b w fuel).sys.calls = setupCalls b w window ++
      loopCalls w.frames window w.shaderProgram w.VAO fuel 0 false ++
      (if loopDone w.frames fuel 0 false then teardownCalls w else []) ∧
    (mainWith b w fuel).sys.shouldClose = loopFlag w.frames fuel 0 false ∧
    (mainWith b w fuel).sys.vertices = vertices ∧
    (mainWith b w fuel).sys.fetched =
      (List.replicate (loopIterations w.frames fuel 0 false)
        (vertexFetch [⟨w.VAO, 0, 3, .GL_FLOAT, false, 12, 0, w.VBO⟩] [(w.VAO, 0)]
          w.VAO 0 3)).flatten ∧
    (loopDone w.frames fuel 0 false = false →
      (mainWith b w fuel).sys.buffers = [(w.VBO, ⟨36, vertices, .GL_STATIC_DRAW⟩)] ∧
      (mainWith b w fuel).sys.attribs = [⟨w.VAO, 0, 3, .GL_FLOAT, false, 12, 0, w.VBO⟩] ∧
      (mainWith b w fuel).sys.enabled = [(w.VAO, 0)]) := by
  rw [mainWith_reach b w fuel window hw hg]
  have h := renderLoop_eq_p2 w window w.shaderProgram w.VAO .framebuffer_size_callback fuel 0
    (entry b w window) rfl
  generalize renderLoop w window w.shaderProgram w.VAO fuel 0 (entry b w window) = R at h
  obtain ⟨h1, h2, h3, h4, h5, h6, h7, h8⟩ := h
  cases R with
  | finished s =>
    simp only [Loop.sys, Loop.done] at h1 h2 h3 h4 h5 h6 h7 h8
    have hd : loopDone w.frames fuel 0 false = true := h2.symm
    simp [Run.code, Run.sys, teardown, glfwTerminate, glDeleteProgram, glDeleteBuffers,
      glDeleteVertexArrays, call, hd, h1, h3, h4, h5, h6, h7, h8, entry, teardownCalls]
  | unfinished s =>
    simp only [Loop.sys, Loop.done] at h1 h2 h3 h4 h5 h6 h7 h8
    have hd : loopDone w.frames fuel 0 false = false := h2.symm
    simp [Run.code, Run.sys, hd, h1, h3, h4, h5, h6, h7, h8, entry]

end C05

theorem loopDone_step (w : World) (n i : Nat) :
    loopDone w.frames (n + 1) i false = loopDone w.frames n (i + 1) (frameCloses (w.frames i)) := by
  simp [loopDone]

theorem loopFlag_step (w : World) (n i : Nat) :
    loopFlag w.frames (n + 1) i false = loopFlag w.frames n (i + 1) (frameCloses (w.frames i)) := by
  simp [loopFlag]

theorem loopDone_closed (w : World) (n i : Nat) : loopDone w.frames (n + 1) i true = true := by
  simp [loopDone]

theorem C04.loopCalls_step_p1 (w : World) (window n i : Nat) :
    C04.loopCalls w.frames window (n + 1) i false =
      .glfwWindowShouldClose window :: (C04.frameCalls (w.frames i) window ++
        C04.loopCalls w.frames window n (i + 1) (frameCloses (w.frames i))) := by
  simp [C04.loopCalls]

theorem C04.loopCalls_closed_p1 (w : World) (window n i : Nat) :
    C04.loopCalls w.frames window (n + 1) i true = [.glfwWindowShouldClose window] := by
  simp [C04.loopCalls]

theorem C05.loopCalls_step_p2 (w : World) (window shaderProgram VAO n i : Nat) :
    C05.loopCalls w.frames window shaderProgram VAO (n + 1) i false =
      .glfwWindowShouldClose window ::
        (C05.frameCalls (w.frames i) window shaderProgram VAO ++
          C05.loopCalls w.frames window shaderProgram VAO n (i + 1) (frameCloses (w.frames i))) := by
  simp [C05.loopCalls]

theorem C05.loopCalls_closed_p2 (w : World) (window shaderProgram VAO n i : Nat) :
    C05.loopCalls w.frames window shaderProgram VAO (n + 1) i true =
      [.glfwWindowShouldClose window] := by
  simp [C05.loopCalls]

/-- The loop under inputs that first raise the close flag in frame `i + k`. -/
theorem loop_first_close (w : World) (k m i : Nat)
    (hq : ∀ j < k, frameCloses (w.frames (i + j)) = false)
    (hp : frameCloses (w.frames (i + k)) = true) :
    loopDone w.frames k i false = false ∧ loopFlag w.frames k i false = false ∧
    loopDone w.frames (k + 1) i false = false ∧ loopFlag w.frames (k + 1) i false = true ∧
    loopDone w.frames (k + 2 + m) i false = true := by
  induction k generalizing i with
  | zero =>
    simp only [Nat.add_zero] at hp
    have e : 0 + 2 + m = (m + 1) + 1 := by omega
    rw [e]
    refine ⟨rfl, rfl, ?_, ?_, ?_⟩
    · rw [loopDone_step]; rfl
    · rw [loopFlag_step, hp]; rfl
    · rw [loopDone_step, hp, loopDone_closed]
  | succ k ih =>
    have h0 : frameCloses (w.frames i) = false := by simpa using hq 0 (Nat.succ_pos k)
    have ih := ih (i + 1) (fun j hj => by
      have := hq (j + 1) (Nat.succ_lt_succ hj)
      rwa [show i + (j + 1) = i + 1 + j by omega] at this)
      (by rwa [show i + (k + 1) = i + 1 + k by omega] at hp)
    obtain ⟨a1, a2, a3, a4, a5⟩ := ih
    have e : k + 1 + 2 + m = (k + 2 + m) + 1 := by omega
    rw [e]
    refine ⟨?_, ?_, ?_, ?_, ?_⟩
    · rw [loopDone_step, h0]; exact a1
    · rw [loopFlag_step, h0]; exact a2
    · rw [loopDone_step, h0]; exact a3
    · rw [loopFlag_step, h0]; exact a4
    · rw [loopDone_step, h0]; exact a5

theorem C04.loopCalls_first_close_p1 (w : World) (window k m i : Nat)
    (hq : ∀ j < k, frameCloses (w.frames (i + j)) = false)
    (hp : frameCloses (w.frames (i + k)) = true) :
    C04.loopCalls w.frames window (k + 1) i false = C04.loopCalls w.frames window k i false ++
      .glfwWindowShouldClose window :: C04.frameCalls (w.frames (i + k)) window ∧
    C04.loopCalls w.frames window (k + 2 + m) i false = C04.loopCalls w.frames window (k + 1) i false ++
      [.glfwWindowShouldClose window] := by
  induction k generalizing i with
  | zero =>
    simp only [Nat.add_zero] at hp
    have e : 0 + 2 + m = (m + 1) + 1 := by omega
    rw [e]
    constructor
    · rw [C04.loopCalls_step_p1]; simp [C04.loopCalls]
    · rw [C04.loopCalls_step_p1, C04.loopCalls_step_p1, hp, C04.loopCalls_closed_p1]
      simp [C04.loopCalls]
  | succ k ih =>
    have h0 : frameCloses (w.frames i) = false := by simpa using hq 0 (Nat.succ_pos k)
    have ih := ih (i + 1) (fun j hj => by
      have := hq (j + 1) (Nat.succ_lt_succ hj)
      rwa [show i + (j + 1) = i + 1 + j by omega] at this)
      (by rwa [show i + (k + 1) = i + 1 + k by omega] at hp)
    obtain ⟨a1, a2⟩ := ih
    have e : k + 1 + 2 + m = (k + 2 + m) + 1 := by omega
    have e2 : i + (k + 1) = i + 1 + k := by omega
    rw [e, e2]
    constructor
    · rw [C04.loopCalls_step_p1, h0, a1, C04.loopCalls_step_p1 (n := k), h0]; simp
    · rw [C04.loopCalls_step_p1, h0, a2, C04.loopCalls_step_p1 (n := k + 1), h0]; simp

theorem C05.loopCalls_first_close_p2 (w : World) (window shaderProgram VAO k m i : Nat)
    (hq : ∀ j < k, frameCloses (w.frames (i + j)) = false)
    (hp : frameCloses (w.frames (i + k)) = true) :
    C05.loopCalls w.frames window shaderProgram VAO (k + 1) i false =
      C05.loopCalls w.frames window shaderProgram VAO k i false ++
      .glfwWindowShouldClose window ::
        C05.frameCalls (w.frames (i + k)) window shaderProgram VAO ∧
    C05.loopCalls w.frames window shaderProgram VAO (k + 2 + m) i false =
      C05.loopCalls w.frames window shaderProgram VAO (k + 1) i false ++
      [.glfwWindowShouldClose window] := by
  induction k generalizing i with
  | zero =>
    simp only [Nat.add_zero] at hp
    have e : 0 + 2 + m = (m + 1) + 1 := by omega
    rw [e]
    constructor
    · rw [C05.loopCalls_step_p2]; simp [C05.loopCalls]
    · rw [C05.loopCalls_step_p2, C05.loopCalls_step_p2, hp, C05.loopCalls_closed_p2]
      simp [C05.loopCalls]
  | succ k ih =>
    have h0 : frameCloses (w.frames i) = false := by simpa using hq 0 (Nat.succ_pos k)
    have ih := ih (i + 1) (fun j hj => by
      have := hq (j + 1) (Nat.succ_lt_succ hj)
      rwa [show i + (j + 1) = i + 1 + j by omega] at this)
      (by rwa [show i + (k + 1) = i + 1 + k by omega] at hp)
    obtain ⟨a1, a2⟩ := ih
    have e : k + 1 + 2 + m = (k + 2 + m) + 1 := by omega
    have e2 : i + (k + 1) = i + 1 + k := by omega
    rw [e, e2]
    constructor
    · rw [C05.loopCalls_step_p2, h0, a1, C05.loopCalls_step_p2 (n := k), h0]; simp
    · rw [C05.loopCalls_step_p2, h0, a2, C05.loopCalls_step_p2 (n := k + 1), h0]; simp

theorem C04.loopCalls_isLoopCall_p1 (w : World) (window fuel i : Nat) (closed : Bool) (c : Call)
    (h : c ∈ C04.loopCalls w.frames window fuel i closed) : c.isLoopCall = true := by
  rcases C04.loopCalls_mem_p1 _ _ _ _ _ _ h with h | ⟨j, h⟩
  · simp [h, Call.isLoopCall]
  · rcases C04.frameCalls_mem_p1 _ _ _ h with h | h | h | h | h | h | ⟨a, b, h⟩ <;>
      simp [h, Call.isLoopCall]

theorem C04.vertices_eq_p1 : C04.vertices = expectedVertices := by
  norm_num [C04.vertices, expectedVertices]

theorem C05.vertices_eq_p2 : C05.vertices = expectedVertices := by
  norm_num [C05.vertices, expectedVertices]

theorem isLoopCall_not_bufferData (c : Call) (h : c.isLoopCall = true) :
    c.isBufferData = false := by
  cases c <;> simp_all [Call.isLoopCall, Call.isBufferData]

theorem isLoopCall_not_diagnostic (c : Call) (h : c.isLoopCall = true) :
    c.isDiagnostic = false := by
  cases c <;> simp_all [Call.isLoopCall, Call.isDiagnostic]

theorem isLoopCall_not_polygonMode (c : Call) (h : c.isLoopCall = true) :
    c.isPolygonMode = false := by
  cases c <;> simp_all [Call.isLoopCall, Call.isPolygonMode]

/-- Filtering a list of loop calls by a predicate that rejects every loop call
leaves nothing. -/
theorem filter_loopCalls (p : Call → Bool) (l : List Call)
    (hl : ∀ c ∈ l, c.isLoopCall = true) (hp : ∀ c, c.isLoopCall = true → p c = false) :
    l.filter p = [] := by
  rw [List.filter_eq_nil_iff]
  intro c hc
  simp [hp c (hl c hc)]

theorem C05.shaderCalls_filter_bufferData (w : World) :
    (C05.shaderCalls w).filter Call.isBufferData = [] := by
  simp only [C05.shaderCalls, C05.shaderDiag, C05.programDiag]
  split_ifs <;> simp [Call.isBufferData]

/-- The global array is the same at every point at which a run can be observed. -/
theorem C04.main_vertices (w : World) (fuel : Nat) : (C04.main w fuel).sys.vertices = C04.vertices := by
  cases hw : w.window with
  | none => rw [C04.main_window_failure w fuel hw]; rfl
  | some window =>
    by_cases hg : w.gladResult = 0
    · rw [C04.main_glad_failure w fuel window hw hg]; rfl
    · exact (C04.main_run w fuel window hw hg).2.2.2.1

theorem C05.mainWith_vertices (b : Bool) (w : World) (fuel : Nat) :
    (C05.mainWith b w fuel).sys.vertices = C05.vertices := by
  cases hw : w.window with
  | none => rw [C05.mainWith_window_failure b w fuel hw]; rfl
  | some window =>
    by_cases hg : w.gladResult = 0
    · rw [C05.mainWith_glad_failure b w fuel window hw hg]; rfl
    · exact (C05.mainWith_run b w fuel window hw hg).2.2.2.1

/-- Filtering a list of loop calls by a predicate that accepts every loop call
keeps all of it. -/
theorem filter_loopCalls_self (p : Call → Bool) (l : List Call)
    (hl : ∀ c ∈ l, c.isLoopCall = true) (hp : ∀ c, c.isLoopCall = true → p c = true) :
    l.filter p = l := by
  rw [List.filter_eq_self]
  intro c hc
  exact hp c (hl c hc)

theorem C05.setupCalls_filter_diagnostic (b : Bool) (w : World) (window : Nat) :
    (C05.setupCalls b w window).filter (fun c => !c.isDiagnostic) =
      C05.setupCalls b (allSucceed w) window := by
  simp only [C05.setupCalls, C05.contextCalls, C05.bootCalls, C05.shaderCalls, C05.arrayCalls,
    C05.shaderDiag, C05.programDiag, allSucceed]
  split_ifs <;> simp_all [Call.isDiagnostic]

theorem C05.setupCalls_diagnostic (b : Bool) (w : World) (window : Nat) :
    (C05.setupCalls b w window).filter Call.isDiagnostic =
      C05.shaderDiag w.vertexStatus w.vertexShader
        "ERROR::SHADER::VERTEX::COMPILATION_FAILED\n" w.vertexLog ++
      C05.shaderDiag w.fragmentStatus w.fragmentShader
        "ERROR::SHADER::FRAGMENT::COMPILATION_FAILED\n" w.fragmentLog ++
      C05.programDiag w.linkStatus w.shaderProgram
        "ERROR::SHADER::PROGRAM::LINKING_FAILED\n" w.programLog := by
  simp only [C05.setupCalls, C05.contextCalls, C05.bootCalls, C05.shaderCalls, C05.arrayCalls,
    C05.shaderDiag, C05.programDiag]
  split_ifs <;> simp [Call.isDiagnostic]

theorem C05.loopCalls_draw (w : World) (window fuel i : Nat) (closed : Bool) (c : Call)
    (h : c ∈ C05.loopCalls w.frames window w.shaderProgram w.VAO fuel i closed)
    (hd : c.isDraw = true) : c = .glDrawArrays .GL_TRIANGLES 0 3 := by
  rcases C05.loopCalls_mem_p2 _ _ _ _ _ _ _ _ h with h | ⟨j, h⟩
  · simp [h, Call.isDraw] at hd
  · rcases C05.frameCalls_mem_p2 _ _ _ _ _ h with h | h | h | h | h | h | h | h | h | ⟨a, b, h⟩ <;>
      simp_all [Call.isDraw]

/-- Before the polygon mode is set, no call sets the polygon mode or draws. -/
theorem C05.beforePolygonMode (w : World) (window : Nat) (c : Call)
    (h : c ∈ C05.contextCalls window ++ C05.shaderCalls w ++ C05.arrayCalls w) :
    c.isPolygonMode = false ∧ c.isDraw = false := by
  have h1 : (C05.contextCalls window ++ C05.shaderCalls w ++ C05.arrayCalls w).filter
      (fun c => c.isPolygonMode || c.isDraw) = [] := by
    simp only [C05.contextCalls, C05.bootCalls, C05.shaderCalls, C05.arrayCalls,
      C05.shaderDiag, C05.programDiag]
    split_ifs <;> simp [Call.isPolygonMode, Call.isDraw]
  rw [List.filter_eq_nil_iff] at h1
  simpa using h1 c h

theorem C05.teardownCalls_mem (w : World) (b : Bool) (c : Call)
    (h : c ∈ (if b = true then C05.teardownCalls w else [])) :
    c.isPolygonMode = false ∧ c.isDraw = false ∧ c.isFrameOutput = false := by
  cases b <;> simp [C05.teardownCalls] at h
  rcases h with h | h | h | h <;> simp [h, Call.isPolygonMode, Call.isDraw, Call.isFrameOutput]

theorem C04.main_no_draw (w : World) (fuel : Nat) (c : Call)
    (h : c ∈ (C04.main w fuel).sys.calls) : c.isDrawOrBind = false := by
  cases hw : w.window with
  | none =>
    rw [C04.main_window_failure w fuel hw] at h
    simp only [Run.sys, C04.bootCalls, List.mem_append, List.mem_cons] at h
    rcases h with (h | h | h | h | h | h) | (h | h | h) <;>
      simp_all [Call.isDrawOrBind]
  | some window =>
    by_cases hg : w.gladResult = 0
    · rw [C04.main_glad_failure w fuel window hw hg] at h
      simp only [Run.sys, C04.bootCalls, List.mem_append, List.mem_cons] at h
      rcases h with (h | h | h | h | h | h) | (h | h | h | h) <;>
        simp_all [Call.isDrawOrBind]
    · rw [(C04.main_run w fuel window hw hg).2.1] at h
      rcases List.mem_append.1 h with h | h
      · rcases List.mem_append.1 h with h | h
        · simp only [C04.setupCalls, C04.bootCalls, List.mem_append, List.mem_cons] at h
          rcases h with (h | h | h | h | h | h) | (h | h | h | h | h | h | h | h | h) <;>
            simp_all [Call.isDrawOrBind]
        · rcases C04.loopCalls_mem_p1 _ _ _ _ _ _ h with h | ⟨j, h⟩
          · simp [h, Call.isDrawOrBind]
          · rcases C04.frameCalls_mem_p1 _ _ _ h with h | h | h | h | h | h | ⟨a, b, h⟩ <;>
              simp [h, Call.isDrawOrBind]
      · split_ifs at h <;> simp [C04.teardownCalls] at h
        simp [h, Call.isDrawOrBind]

/-- One draw of program 2 reads bytes `0 .. 35` of the vertex buffer, in order. -/
theorem vertexFetch_triangle (VAO VBO : Nat) :
    vertexFetch [⟨VAO, 0, 3, .GL_FLOAT, false, 12, 0, VBO⟩] [(VAO, 0)] VAO 0 3 =
      triangleBytes VBO := by
  have h : ([(⟨VAO, 0, 3, .GL_FLOAT, false, 12, 0, VBO⟩ : Attrib)].filter
      (fun a => a.array == VAO && [(VAO, 0)].contains (a.array, a.index))) =
      [⟨VAO, 0, 3, .GL_FLOAT, false, 12, 0, VBO⟩] := by simp
  unfold vertexFetch
  rw [h]
  rfl

theorem triangleBytes_bounds (buffer : Nat) (f : Fetch) (h : f ∈ triangleBytes buffer) :
    f.buffer = buffer ∧ f.vertex < 3 ∧ 12 * f.vertex ≤ f.byte ∧
      f.byte < 12 * f.vertex + 12 ∧ f.byte < 36 := by
  simp only [triangleBytes, List.mem_map, List.mem_range] at h
  obtain ⟨b, hb, rfl⟩ := h
  refine ⟨rfl, ?_, ?_, ?_, ?_⟩
  · show b / 12 < 3
    omega
  · show 12 * (b / 12) ≤ b
    omega
  · show b < 12 * (b / 12) + 12
    omega
  · exact hb

theorem resizeCalls_filter_draw (evs : List Event) :
    (resizeCalls evs).filter Call.isDraw = [] := by
  rw [List.filter_eq_nil_iff]
  intro c hc
  obtain ⟨a, b, rfl⟩ := resizeCalls_mem evs c hc
  simp [Call.isDraw]

theorem C05.frameCalls_filter_draw (f : Frame) (window shaderProgram VAO : Nat) :
    (C05.frameCalls f window shaderProgram VAO).filter Call.isDraw =
      [.glDrawArrays .GL_TRIANGLES 0 3] := by
  simp only [C05.frameCalls, List.filter_append, resizeCalls_filter_draw]
  split_ifs <;> simp [Call.isDraw]

/-- The loop issues one draw call per executed body. -/
theorem C05.loopCalls_draw_count (frames : Nat → Frame) (window shaderProgram VAO fuel i : Nat)
    (closed : Bool) :
    ((C05.loopCalls frames window shaderProgram VAO fuel i closed).filter Call.isDraw).length =
      loopIterations frames fuel i closed := by
  induction fuel generalizing i closed with
  | zero => simp [C05.loopCalls, loopIterations]
  | succ n ih =>
    cases closed with
    | true => simp [C05.loopCalls, loopIterations, Call.isDraw]
    | false =>
      simp [C05.loopCalls, loopIterations, List.filter_append, C05.frameCalls_filter_draw, ih,
        Call.isDraw, Nat.add_comm]

/-- A list that starts with a draw-free block and is split at a draw call has
the whole block before the split point. -/
theorem block_before_draw (A B pre post : List Call) (d : Call) (hd : d.isDraw = true)
    (hA : ∀ c ∈ A, c.isDraw = false) (h : A ++ B = pre ++ d :: post) :
    ∃ r, pre = A ++ r := by
  rcases List.append_eq_append_iff.1 h with ⟨a, h1, -⟩ | ⟨c, h1, h2⟩
  · exact ⟨a, h1⟩
  · cases c with
    | nil => exact ⟨[], by simpa using h1.symm⟩
    | cons x xs =>
      have hx : x = d := by
        have := congrArg List.head? h2
        simpa using this.symm
      have : d ∈ A := by rw [h1, ← hx]; simp
      rw [hA d this] at hd
      cases hd

theorem C05.setupCalls_no_draw (b : Bool) (w : World) (window : Nat) (c : Call)
    (h : c ∈ C05.setupCalls b w window) : c.isDraw = false := by
  unfold C05.setupCalls at h
  rcases List.mem_append.1 h with h | h
  · exact (C05.beforePolygonMode w window c h).2
  · rw [List.mem_singleton] at h
    simp [h, Call.isDraw]

theorem C05.shaderCalls_filter_attrib (w : World) :
    (C05.shaderCalls w).filter Call.isAttribSetup = [] := by
  simp only [C05.shaderCalls, C05.shaderDiag, C05.programDiag]
  split_ifs <;> simp [Call.isAttribSetup]

theorem isLoopCall_not_attribSetup (c : Call) (h : c.isLoopCall = true) :
    c.isAttribSetup = false := by
  cases c <;> simp_all [Call.isLoopCall, Call.isAttribSetup]

/-! ## The claims -/

/-- C1: in both programs, when `glfwCreateWindow` returns NULL, `main` prints
"Failed to create GLFW window", calls `glfwTerminate` exactly once and returns
-1; the context is never made current, the loader is never called and no
graphics call is issued. -/
theorem C1_window_failure (w : World) (fuel : Nat) (h : w.window = none) :
    ((C04.main w fuel).code = some (-1) ∧
      (C04.main w fuel).sys.calls =
        [.glfwInit,
         .glfwWindowHint .GLFW_CONTEXT_VERSION_MAJOR (.int 3),
         .glfwWindowHint .GLFW_CONTEXT_VERSION_MINOR (.int 3),
         .glfwWindowHint .GLFW_OPENGL_PROFILE .GLFW_OPENGL_CORE_PROFILE,
         .glfwCreateWindow 1600 1200 "LearnOpenGL_C04",
         .coutLine "Failed to create GLFW window",
         .glfwTerminate]) ∧
    ((C05.main w fuel).code = some (-1) ∧
      (C05.main w fuel).sys.calls =
        [.glfwInit,
         .glfwWindowHint .GLFW_CONTEXT_VERSION_MAJOR (.int 3),
         .glfwWindowHint .GLFW_CONTEXT_VERSION_MINOR (.int 3),
         .glfwWindowHint .GLFW_OPENGL_PROFILE .GLFW_OPENGL_CORE_PROFILE,
         .glfwCreateWindow 1600 1200 "LearnOpenGL_C05",
         .coutLine "Failed to create GLFW window",
         .glfwTerminate]) ∧
    (∀ calls, calls = (C04.main w fuel).sys.calls ∨ calls = (C05.main w fuel).sys.calls →
      calls.count .glfwTerminate = 1 ∧
      .gladLoadGLLoader ∉ calls ∧
      ∀ c ∈ calls, c.isGraphics = false ∧ ∀ window, c ≠ .glfwMakeContextCurrent window) := by
  have h4 := C04.main_window_failure w fuel h
  have h5 := C05.mainWith_window_failure C05.OnlyRenderLines w fuel h
  have e4 : (C04.main w fuel).sys.calls = C04.bootCalls ++
      [.coutLine "Failed to create GLFW window", .glfwTerminate] := by rw [h4]; rfl
  have e5 : (C05.main w fuel).sys.calls = C05.bootCalls ++
      [.coutLine "Failed to create GLFW window", .glfwTerminate] := by
    unfold C05.main; rw [h5]; rfl
  refine ⟨⟨by rw [h4]; rfl, by rw [e4]; rfl⟩, ⟨by unfold C05.main; rw [h5]; rfl, by rw [e5]; rfl⟩,
    ?_⟩
  rintro calls (hc | hc)
  · subst hc; rw [e4]
    simp [C04.bootCalls, Call.isGraphics]
  · subst hc; rw [e5]
    simp [C05.bootCalls, Call.isGraphics]

/-- Witness for C1 at `worldNoWindow`: program 2 exits with -1. -/
theorem C1_window_failure_witness : (C05.main worldNoWindow 0).code = some (-1) :=
  (C1_window_failure worldNoWindow 0 rfl).2.1.1

/-- C2, evaluated where the loader fails after a window was created: both
programs print "Failed to initialize GLAD" and return -1 without any graphics
call, and `glfwTerminate` is not called anywhere on this path. -/
theorem C2_glad_failure_skips_terminate :
    ((C04.main worldNoGlad 0).code = some (-1) ∧
      (C04.main worldNoGlad 0).sys.calls =
        [.glfwInit,
         .glfwWindowHint .GLFW_CONTEXT_VERSION_MAJOR (.int 3),
         .glfwWindowHint .GLFW_CONTEXT_VERSION_MINOR (.int 3),
         .glfwWindowHint .GLFW_OPENGL_PROFILE .GLFW_OPENGL_CORE_PROFILE,
         .glfwCreateWindow 1600 1200 "LearnOpenGL_C04",
         .glfwMakeContextCurrent 1,
         .gladLoadGLLoader,
         .coutLine "Failed to initialize GLAD"] ∧
      Call.glfwTerminate ∉ (C04.main worldNoGlad 0).sys.calls) ∧
    ((C05.main worldNoGlad 0).code = some (-1) ∧
      (C05.main worldNoGlad 0).sys.calls =
        [.glfwInit,
         .glfwWindowHint .GLFW_CONTEXT_VERSION_MAJOR (.int 3),
         .glfwWindowHint .GLFW_CONTEXT_VERSION_MINOR (.int 3),
         .glfwWindowHint .GLFW_OPENGL_PROFILE .GLFW_OPENGL_CORE_PROFILE,
         .glfwCreateWindow 1600 1200 "LearnOpenGL_C05",
         .glfwMakeContextCurrent 1,
         .glfwSetFramebufferSizeCallback 1 .framebuffer_size_callback,
         .gladLoadGLLoader,
         .coutLine "Failed to initialize GLAD"] ∧
      Call.glfwTerminate ∉ (C05.main worldNoGlad 0).sys.calls) := by
  have h4 := C04.main_glad_failure worldNoGlad 0 1 rfl rfl
  have h5 := C05.mainWith_glad_failure C05.OnlyRenderLines worldNoGlad 0 1 rfl rfl
  have e4 : (C04.main worldNoGlad 0).sys.calls = C04.bootCalls ++
      [.glfwMakeContextCurrent 1, .gladLoadGLLoader,
       .coutLine "Failed to initialize GLAD"] := by rw [h4]; rfl
  have e5 : (C05.main worldNoGlad 0).sys.calls = C05.bootCalls ++
      [.glfwMakeContextCurrent 1,
       .glfwSetFramebufferSizeCallback 1 .framebuffer_size_callback,
       .gladLoadGLLoader, .coutLine "Failed to initialize GLAD"] := by
    unfold C05.main; rw [h5]; rfl
  refine ⟨⟨by rw [h4]; rfl, by rw [e4]; rfl, ?_⟩, ⟨by unfold C05.main; rw [h5]; rfl,
    by rw [e5]; rfl, ?_⟩⟩
  · rw [e4]; simp [C04.bootCalls]
  · rw [e5]; simp [C05.bootCalls]

/-- C3: in both programs, for all integers `width` and `height` and every window
handle, `framebuffer_size_callback` issues `glViewport(0, 0, width, height)` with
the two values unchanged, which makes the viewport `(0, 0, width, height)`, and
leaves the rest of the state as it was. -/
theorem C3_resize_sets_viewport (window : Nat) (width height : Int) (s : Sys) :
    C04.framebuffer_size_callback window width height s =
      { s with calls := s.calls ++ [.glViewport 0 0 width height]
               viewport := some (0, 0, width, height) } ∧
    C05.framebuffer_size_callback window width height s =
      { s with calls := s.calls ++ [.glViewport 0 0 width height]
               viewport := some (0, 0, width, height) } := by
  constructor <;> rfl


/-- C4: in both programs, take a run that gets past the loader and whose inputs
keep the close flag down during frames `0 .. k-1` (Escape released, no close
request), so that iteration `k` is entered.  If Escape reads as pressed in
iteration `k`, then `processInput` raises the close flag, the flag is up when
iteration `k` completes, and from that point the only further calls are the
final evaluation of the loop condition, the resource deletions (program 2) and
`glfwTerminate`; `main` returns 0 for every budget of at least `k + 2`
condition evaluations. -/
theorem C4_escape_ends_loop (w : World) (window k fuel : Nat)
    (hw : w.window = some window) (hg : w.gladResult ≠ 0)
    (hq : ∀ j < k, (w.frames j).escape = .GLFW_RELEASE ∧ Event.close ∉ (w.frames j).events)
    (hp : (w.frames k).escape = .GLFW_PRESS) (hf : k + 2 ≤ fuel) :
    (∀ s, (C04.processInput (w.frames k).escape window s).shouldClose = true ∧
      (C05.processInput (w.frames k).escape window s).shouldClose = true) ∧
    ((C04.main w k).code = none ∧ (C04.main w k).sys.shouldClose = false ∧
      (C04.main w (k + 1)).code = none ∧ (C04.main w (k + 1)).sys.shouldClose = true ∧
      (C04.main w (k + 1)).sys.calls = (C04.main w k).sys.calls ++
        .glfwWindowShouldClose window :: C04.frameCalls (w.frames k) window ∧
      (C04.main w fuel).code = some 0 ∧
      (C04.main w fuel).sys.calls = (C04.main w (k + 1)).sys.calls ++
        [.glfwWindowShouldClose window, .glfwTerminate]) ∧
    ((C05.main w k).code = none ∧ (C05.main w k).sys.shouldClose = false ∧
      (C05.main w (k + 1)).code = none ∧ (C05.main w (k + 1)).sys.shouldClose = true ∧
      (C05.main w (k + 1)).sys.calls = (C05.main w k).sys.calls ++
        .glfwWindowShouldClose window ::
          C05.frameCalls (w.frames k) window w.shaderProgram w.VAO ∧
      (C05.main w fuel).code = some 0 ∧
      (C05.main w fuel).sys.calls = (C05.main w (k + 1)).sys.calls ++
        [.glfwWindowShouldClose window, .glDeleteVertexArrays 1 w.VAO,
         .glDeleteBuffers 1 w.VBO, .glDeleteProgram w.shaderProgram, .glfwTerminate]) := by
  obtain ⟨m, rfl⟩ : ∃ m, fuel = k + 2 + m := ⟨fuel - (k + 2), by omega⟩
  have hq0 : ∀ j < k, frameCloses (w.frames (0 + j)) = false := by
    intro j hj
    obtain ⟨h1, h2⟩ := hq j hj
    simp [frameCloses, h1, (closeRequested_eq_false _).2 h2]
  have hp0 : frameCloses (w.frames (0 + k)) = true := by simp [frameCloses, hp]
  obtain ⟨d1, d2, d3, d4, d5⟩ := loop_first_close w k m 0 hq0 hp0
  refine ⟨?_, ?_, ?_⟩
  · intro s
    simp [C04.processInput, C05.processInput, glfwGetKey, glfwSetWindowShouldClose, hp]
  · obtain ⟨c1, c2⟩ := C04.loopCalls_first_close_p1 w window k m 0 hq0 hp0
    obtain ⟨r1, r2, r3, -⟩ := C04.main_run w k window hw hg
    obtain ⟨s1, s2, s3, -⟩ := C04.main_run w (k + 1) window hw hg
    obtain ⟨t1, t2, -⟩ := C04.main_run w (k + 2 + m) window hw hg
    simp only [Nat.zero_add] at c1
    rw [r1, r2, r3, s1, s2, s3, t1, t2, d1, d2, d3, d4, d5, c2, c1]
    simp [C04.teardownCalls]
  · obtain ⟨c1, c2⟩ := C05.loopCalls_first_close_p2 w window w.shaderProgram w.VAO k m 0 hq0 hp0
    obtain ⟨r1, r2, r3, -⟩ := C05.mainWith_run C05.OnlyRenderLines w k window hw hg
    obtain ⟨s1, s2, s3, -⟩ := C05.mainWith_run C05.OnlyRenderLines w (k + 1) window hw hg
    obtain ⟨t1, t2, -⟩ := C05.mainWith_run C05.OnlyRenderLines w (k + 2 + m) window hw hg
    simp only [Nat.zero_add] at c1
    unfold C05.main
    rw [r1, r2, r3, s1, s2, s3, t1, t2, d1, d2, d3, d4, d5, c2, c1]
    simp [C05.teardownCalls]

/-- Witness for C4 at `worldOk`, where Escape is down in frame 0: program 2
returns 0 after two evaluations of the loop condition. -/
theorem C4_escape_ends_loop_witness : (C05.main worldOk 2).code = some 0 :=
  (C4_escape_ends_loop worldOk 1 0 2 rfl (by decide) (fun j hj => absurd hj (Nat.not_lt_zero j))
    rfl (Nat.le_refl 2)).2.2.2.2.2.2.2.1

/-- C5: in both programs a run that gets past the loader issues exactly one
`glBufferData` call; it uploads 36 bytes, which is 9 floats of 4 bytes, equal in
order to `(-1/2, -1/2, 0)`, `(1/2, -1/2, 0)`, `(0, 1/2, 0)`, with usage
`GL_STATIC_DRAW`.  The array `vertices` holds those values at every point of
every run, and the buffer store reads back as the same values while it exists
(always in program 1, until the deletion after the loop in program 2). -/
theorem C5_vertex_upload (w : World) (fuel window : Nat) (hw : w.window = some window)
    (hg : w.gladResult ≠ 0) :
    expectedVertices.length = 9 ∧ sizeofFloat * expectedVertices.length = 36 ∧
    (C04.main w fuel).sys.calls.filter Call.isBufferData =
      [.glBufferData .GL_ARRAY_BUFFER 36 expectedVertices .GL_STATIC_DRAW] ∧
    (C05.main w fuel).sys.calls.filter Call.isBufferData =
      [.glBufferData .GL_ARRAY_BUFFER 36 expectedVertices .GL_STATIC_DRAW] ∧
    (∀ w2 fuel2, (C04.main w2 fuel2).sys.vertices = expectedVertices ∧
      (C05.main w2 fuel2).sys.vertices = expectedVertices) ∧
    (C04.main w fuel).sys.buffers = [(w.VBO, ⟨36, expectedVertices, .GL_STATIC_DRAW⟩)] ∧
    ((C05.main w fuel).code = none →
      (C05.main w fuel).sys.buffers = [(w.VBO, ⟨36, expectedVertices, .GL_STATIC_DRAW⟩)]) := by
  obtain ⟨-, r2, -, -, r5, -⟩ := C04.main_run w fuel window hw hg
  obtain ⟨t1, t2, -, -, -, t6⟩ := C05.mainWith_run C05.OnlyRenderLines w fuel window hw hg
  have n4 : (C04.loopCalls w.frames window fuel 0 false).filter Call.isBufferData = [] :=
    filter_loopCalls _ _ (fun c hc => C04.loopCalls_isLoopCall_p1 _ _ _ _ _ c hc)
      isLoopCall_not_bufferData
  have n5 : (C05.loopCalls w.frames window w.shaderProgram w.VAO fuel 0 false).filter
      Call.isBufferData = [] :=
    filter_loopCalls _ _ (fun c hc => C05.loopCalls_isLoopCall_p2 _ _ _ _ _ _ _ c hc)
      isLoopCall_not_bufferData
  refine ⟨rfl, rfl, ?_, ?_, ?_, ?_, ?_⟩
  · rw [r2, List.filter_append, List.filter_append, n4, ← C04.vertices_eq_p1]
    have : (if loopDone w.frames fuel 0 false = true then C04.teardownCalls else []).filter
        Call.isBufferData = [] := by
      split_ifs <;> simp [C04.teardownCalls, Call.isBufferData]
    rw [this]
    simp [C04.setupCalls, C04.bootCalls, Call.isBufferData]
  · unfold C05.main
    rw [t2, List.filter_append, List.filter_append, n5, ← C05.vertices_eq_p2]
    have : (if loopDone w.frames fuel 0 false = true then C05.teardownCalls w else []).filter
        Call.isBufferData = [] := by
      split_ifs <;> simp [C05.teardownCalls, Call.isBufferData]
    rw [this]
    simp [C05.setupCalls, C05.contextCalls, C05.arrayCalls, C05.bootCalls,
      C05.shaderCalls_filter_bufferData, Call.isBufferData]
  · intro w2 fuel2
    exact ⟨(C04.main_vertices w2 fuel2).trans C04.vertices_eq_p1,
      (C05.mainWith_vertices _ w2 fuel2).trans C05.vertices_eq_p2⟩
  · rw [r5, C04.vertices_eq_p1]
  · intro hc
    unfold C05.main at hc ⊢
    rw [t1] at hc
    have hd : loopDone w.frames fuel 0 false = false := by
      cases h : loopDone w.frames fuel 0 false with
      | false => rfl
      | true => simp [h] at hc
    rw [(t6 hd).1, C05.vertices_eq_p2]

/-- Witness for C5 at `worldOk`: program 1 holds the triangle in its buffer store
when it has returned. -/
theorem C5_vertex_upload_witness :
    (C04.main worldOk 2).sys.buffers = [(1, ⟨36, expectedVertices, .GL_STATIC_DRAW⟩)] :=
  (C5_vertex_upload worldOk 2 1 rfl (by decide)).2.2.2.2.2.1

/-- C6: in program 2, on a run that gets past the loader, the three build-status
results never change the exit status, and the run reaches the loop whatever they
are.  With the info-log fetches and prints removed, the call sequence is that of
the run in which all three queries report success.  The fetches and prints that
occur are, per stage whose status is 0 and in build order, one info-log fetch
with buffer size 512 followed by one print of the stage header and at most 511
characters of the log. -/
theorem C6_shader_failure_nonfatal (w : World) (fuel window : Nat)
    (hw : w.window = some window) (hg : w.gladResult ≠ 0) :
    (C05.main w 0).code = none ∧
    (C05.main w fuel).code = (C05.main (allSucceed w) fuel).code ∧
    (C05.main w fuel).sys.calls.filter (fun c => !c.isDiagnostic) =
      (C05.main (allSucceed w) fuel).sys.calls ∧
    (C05.main w fuel).sys.calls.filter Call.isDiagnostic =
      (if w.vertexStatus = 0 then
        [.glGetShaderInfoLog w.vertexShader 512,
         .coutLine ("ERROR::SHADER::VERTEX::COMPILATION_FAILED\n" ++
           String.mk (w.vertexLog.take 511))]
       else []) ++
      (if w.fragmentStatus = 0 then
        [.glGetShaderInfoLog w.fragmentShader 512,
         .coutLine ("ERROR::SHADER::FRAGMENT::COMPILATION_FAILED\n" ++
           String.mk (w.fragmentLog.take 511))]
       else []) ++
      (if w.linkStatus = 0 then
        [.glGetProgramInfoLog w.shaderProgram 512,
         .coutLine ("ERROR::SHADER::PROGRAM::LINKING_FAILED\n" ++
           String.mk (w.programLog.take 511))]
       else []) ∧
    (String.mk (w.vertexLog.take 511)).length ≤ 511 ∧
    (String.mk (w.fragmentLog.take 511)).length ≤ 511 ∧
    (String.mk (w.programLog.take 511)).length ≤ 511 := by
  obtain ⟨z1, -⟩ := C05.mainWith_run C05.OnlyRenderLines w 0 window hw hg
  obtain ⟨r1, r2, -⟩ := C05.mainWith_run C05.OnlyRenderLines w fuel window hw hg
  obtain ⟨t1, t2, -⟩ := C05.mainWith_run C05.OnlyRenderLines (allSucceed w) fuel window hw hg
  have hl : ∀ c ∈ C05.loopCalls w.frames window w.shaderProgram w.VAO fuel 0 false,
      c.isLoopCall = true := fun c hc => C05.loopCalls_isLoopCall_p2 _ _ _ _ _ _ _ c hc
  have n1 := filter_loopCalls_self (fun c => !c.isDiagnostic) _ hl
    (fun c hc => by simp [isLoopCall_not_diagnostic c hc])
  have n2 := filter_loopCalls Call.isDiagnostic _ hl isLoopCall_not_diagnostic
  have e1 : (if loopDone w.frames fuel 0 false = true then C05.teardownCalls w else []).filter
      (fun c => !c.isDiagnostic) =
      (if loopDone w.frames fuel 0 false = true then C05.teardownCalls w else []) := by
    split_ifs <;> simp [C05.teardownCalls, Call.isDiagnostic]
  have e2 : (if loopDone w.frames fuel 0 false = true then C05.teardownCalls w else []).filter
      Call.isDiagnostic = [] := by
    split_ifs <;> simp [C05.teardownCalls, Call.isDiagnostic]
  unfold C05.main
  refine ⟨?_, ?_, ?_, ?_, ?_, ?_, ?_⟩
  · rw [z1]; simp [loopDone]
  · rw [r1, t1]; rfl
  · rw [r2, t2, List.filter_append, List.filter_append, n1, e1,
      C05.setupCalls_filter_diagnostic]
    rfl
  · rw [r2, List.filter_append, List.filter_append, n2, e2, C05.setupCalls_diagnostic]
    simp [C05.shaderDiag, C05.programDiag]
  · simp [String.length]
  · simp [String.length]
  · simp [String.length]

/-- Witness for C6 at `worldBadShader`, whose vertex shader fails to compile:
the exit status is that of the all-success run. -/
theorem C6_shader_failure_nonfatal_witness :
    (C05.main worldBadShader 2).code = (C05.main (allSucceed worldBadShader) 2).code :=
  (C6_shader_failure_nonfatal worldBadShader 2 1 rfl (by decide)).2.1

/-- C7: in program 2, for the same world and the same budget, the run built
with `OnlyRenderLines` true and the run built with it false have the same exit
status, and on a run that gets past the loader their call sequences are the
same before and after the one `glPolygonMode` call, whose mode is `GL_LINE` in
the first and `GL_FILL` in the second.  The upload of the vertex data and the
attribute layout are in the common part, every draw call is
`glDrawArrays(GL_TRIANGLES, 0, 3)`, and the bytes fetched by the draws are the
same. -/
theorem C7_fill_mode_only (w : World) (fuel window : Nat) (hw : w.window = some window)
    (hg : w.gladResult ≠ 0) :
    (C05.mainWith true w fuel).code = (C05.mainWith false w fuel).code ∧
    (∃ pre post,
      (C05.mainWith true w fuel).sys.calls =
        pre ++ .glPolygonMode .GL_FRONT_AND_BACK .GL_LINE :: post ∧
      (C05.mainWith false w fuel).sys.calls =
        pre ++ .glPolygonMode .GL_FRONT_AND_BACK .GL_FILL :: post ∧
      (∀ c ∈ pre ++ post, c.isPolygonMode = false) ∧
      .glBufferData .GL_ARRAY_BUFFER 36 expectedVertices .GL_STATIC_DRAW ∈ pre ∧
      .glVertexAttribPointer 0 3 .GL_FLOAT false 12 0 ∈ pre ∧
      (∀ c ∈ pre ++ post, c.isDraw = true → c = .glDrawArrays .GL_TRIANGLES 0 3)) ∧
    (C05.mainWith true w fuel).sys.fetched = (C05.mainWith false w fuel).sys.fetched ∧
    (C05.mainWith true w fuel).sys.vertices = (C05.mainWith false w fuel).sys.vertices := by
  obtain ⟨r1, r2, -, r4, r5, -⟩ := C05.mainWith_run true w fuel window hw hg
  obtain ⟨t1, t2, -, t4, t5, -⟩ := C05.mainWith_run false w fuel window hw hg
  refine ⟨by rw [r1, t1], ?_, by rw [r5, t5], by rw [r4, t4]⟩
  refine ⟨C05.contextCalls window ++ C05.shaderCalls w ++ C05.arrayCalls w,
    C05.loopCalls w.frames window w.shaderProgram w.VAO fuel 0 false ++
      (if loopDone w.frames fuel 0 false = true then C05.teardownCalls w else []),
    ?_, ?_, ?_, ?_, ?_, ?_⟩
  · rw [r2]; simp [C05.setupCalls]
  · rw [t2]; simp [C05.setupCalls]
  · intro c hc
    rcases List.mem_append.1 hc with hc | hc
    · exact (C05.beforePolygonMode w window c hc).1
    · rcases List.mem_append.1 hc with hc | hc
      · exact isLoopCall_not_polygonMode c (C05.loopCalls_isLoopCall_p2 _ _ _ _ _ _ _ c hc)
      · exact (C05.teardownCalls_mem w _ c hc).1
  · rw [← C05.vertices_eq_p2]; simp [C05.arrayCalls]
  · simp [C05.arrayCalls]
  · intro c hc hd
    rcases List.mem_append.1 hc with hc | hc
    · rw [(C05.beforePolygonMode w window c hc).2] at hd; cases hd
    · rcases List.mem_append.1 hc with hc | hc
      · exact C05.loopCalls_draw w window fuel 0 false c hc hd
      · rw [(C05.teardownCalls_mem w _ c hc).2.1] at hd; cases hd

/-- Witness for C7 at `worldOk`: both builds exit with the same status. -/
theorem C7_fill_mode_only_witness :
    (C05.mainWith true worldOk 2).code = (C05.mainWith false worldOk 2).code :=
  (C7_fill_mode_only worldOk 2 1 rfl (by decide)).1

/-- C8: one iteration of the loop body issues, in this order: the Escape key
query (followed by the close request when the key is down), `glClearColor(0.2,
0.3, 0.3, 1.0)`, `glClear(GL_COLOR_BUFFER_BIT)`, in program 2 only
`glUseProgram`, `glBindVertexArray` and `glDrawArrays(GL_TRIANGLES, 0, 3)`, then
`glfwSwapBuffers`, then `glfwPollEvents` with the viewport calls of the resize
callback.  A run that gets past the loader is the setup calls, then such
iterations for frames `0 .. n-1`, each after an evaluation of the loop condition,
then nothing or the final evaluation and the calls after the loop.  Program 1
issues no draw call, vertex-array bind or program bind in any run. -/
theorem C8_iteration_order (w : World) (fuel window : Nat) (hw : w.window = some window)
    (hg : w.gladResult ≠ 0) :
    (∀ (f : Frame) (s : Sys) (c : Callback), s.resizeCallback = some c →
      (C04.loopBody f window s).calls = s.calls ++
        ([.glfwGetKey window .GLFW_KEY_ESCAPE] ++
         (if f.escape = .GLFW_PRESS then [.glfwSetWindowShouldClose window true] else []) ++
         [.glClearColor 0.2 0.3 0.3 1.0, .glClear .GL_COLOR_BUFFER_BIT,
          .glfwSwapBuffers window, .glfwPollEvents] ++
         resizeCalls f.events) ∧
      (C05.loopBody f window w.shaderProgram w.VAO s).calls = s.calls ++
        ([.glfwGetKey window .GLFW_KEY_ESCAPE] ++
         (if f.escape = .GLFW_PRESS then [.glfwSetWindowShouldClose window true] else []) ++
         [.glClearColor 0.2 0.3 0.3 1.0, .glClear .GL_COLOR_BUFFER_BIT,
          .glUseProgram w.shaderProgram, .glBindVertexArray w.VAO,
          .glDrawArrays .GL_TRIANGLES 0 3,
          .glfwSwapBuffers window, .glfwPollEvents] ++
         resizeCalls f.events)) ∧
    (∃ n tail, (C04.main w fuel).sys.calls = C04.setupCalls w window ++
        (List.range n).flatMap (fun i => .glfwWindowShouldClose window ::
          C04.frameCalls (w.frames i) window) ++ tail ∧
      (tail = [] ∨ tail = [.glfwWindowShouldClose window, .glfwTerminate])) ∧
    (∃ n tail, (C05.main w fuel).sys.calls = C05.setupCalls false w window ++
        (List.range n).flatMap (fun i => .glfwWindowShouldClose window ::
          C05.frameCalls (w.frames i) window w.shaderProgram w.VAO) ++ tail ∧
      (tail = [] ∨ tail = [.glfwWindowShouldClose window, .glDeleteVertexArrays 1 w.VAO,
        .glDeleteBuffers 1 w.VBO, .glDeleteProgram w.shaderProgram, .glfwTerminate])) ∧
    (∀ w2 fuel2, ∀ c ∈ (C04.main w2 fuel2).sys.calls, c.isDrawOrBind = false) := by
  refine ⟨?_, ?_, ?_, fun w2 fuel2 c hc => C04.main_no_draw w2 fuel2 c hc⟩
  · intro f s c hs
    rw [C04.loopBody_eq_p1 f window s c hs, C05.loopBody_eq_p2 f window _ _ s c hs]
    exact ⟨rfl, rfl⟩
  · refine ⟨loopIterations w.frames fuel 0 false,
      (if loopDone w.frames fuel 0 false = true then
        [.glfwWindowShouldClose window, .glfwTerminate] else []), ?_, ?_⟩
    · rw [(C04.main_run w fuel window hw hg).2.1, C04.loopCalls_range_p1, List.range_eq_range']
      split_ifs <;> simp [C04.teardownCalls]
    · split_ifs <;> simp
  · refine ⟨loopIterations w.frames fuel 0 false,
      (if loopDone w.frames fuel 0 false = true then
        [.glfwWindowShouldClose window, .glDeleteVertexArrays 1 w.VAO,
          .glDeleteBuffers 1 w.VBO, .glDeleteProgram w.shaderProgram, .glfwTerminate]
       else []), ?_, ?_⟩
    · unfold C05.main
      rw [(C05.mainWith_run C05.OnlyRenderLines w fuel window hw hg).2.1, C05.loopCalls_range_p2,
        List.range_eq_range']
      split_ifs <;> simp [C05.teardownCalls, C05.OnlyRenderLines]
    · split_ifs <;> simp

/-- Witness for C8 at `worldOk`: the calls of one iteration of program 1 from
the state `registered` with Escape down. -/
theorem C8_iteration_order_witness :
    (C04.loopBody escapeFrame 1 registered).calls = registered.calls ++
      ([.glfwGetKey 1 .GLFW_KEY_ESCAPE] ++
       (if escapeFrame.escape = .GLFW_PRESS then [.glfwSetWindowShouldClose 1 true] else []) ++
       [.glClearColor 0.2 0.3 0.3 1.0, .glClear .GL_COLOR_BUFFER_BIT,
        .glfwSwapBuffers 1, .glfwPollEvents] ++
       resizeCalls escapeFrame.events) :=
  ((C8_iteration_order worldOk 2 1 rfl (by decide)).1 escapeFrame registered
    .framebuffer_size_callback rfl).1

/-- C9: in program 2, on every run that gets past the loader, (1) whenever the
log is split at a draw call, both `glCompileShader` calls and the
`glLinkProgram` call lie before it; (2) the only attribute-declaring and
attribute-enabling calls of the run are the two inside the contiguous block
bind array, bind buffer, upload, declare attribute 0, enable attribute 0, unbind
buffer, unbind array, and the attribute recorded in the state names the
generated array and the generated buffer as the objects bound when it was
declared; (3) the slot index 0 is the input location declared in the vertex
shader source handed to `glShaderSource`. -/
theorem C9_ordering_invariant (w : World) (fuel window : Nat) (hw : w.window = some window)
    (hg : w.gladResult ≠ 0) :
    (∀ pre post mode first count,
      (C05.main w fuel).sys.calls = pre ++ .glDrawArrays mode first count :: post →
      .glCompileShader w.vertexShader ∈ pre ∧ .glCompileShader w.fragmentShader ∈ pre ∧
      .glLinkProgram w.shaderProgram ∈ pre) ∧
    (∃ pre post,
      (C05.main w fuel).sys.calls = pre ++
        [.glBindVertexArray w.VAO,
         .glBindBuffer .GL_ARRAY_BUFFER w.VBO,
         .glBufferData .GL_ARRAY_BUFFER 36 C05.vertices .GL_STATIC_DRAW,
         .glVertexAttribPointer 0 3 .GL_FLOAT false 12 0,
         .glEnableVertexAttribArray 0,
         .glBindBuffer .GL_ARRAY_BUFFER 0,
         .glBindVertexArray 0] ++ post ∧
      (pre ++ post).filter Call.isAttribSetup = []) ∧
    ((C05.main w fuel).code = none →
      (C05.main w fuel).sys.attribs = [⟨w.VAO, 0, 3, .GL_FLOAT, false, 12, 0, w.VBO⟩] ∧
      (C05.main w fuel).sys.enabled = [(w.VAO, 0)]) ∧
    declaredLocation C05.vertexShaderSource = some 0 ∧
    .glShaderSource w.vertexShader 1 C05.vertexShaderSource ∈ (C05.main w fuel).sys.calls := by
  obtain ⟨r1, r2, -, -, -, r6⟩ := C05.mainWith_run C05.OnlyRenderLines w fuel window hw hg
  unfold C05.main
  refine ⟨?_, ?_, ?_, by rfl, ?_⟩
  · intro pre post mode first count h
    rw [r2, List.append_assoc] at h
    obtain ⟨r, rfl⟩ := block_before_draw _ _ pre post (.glDrawArrays mode first count) rfl
      (C05.setupCalls_no_draw _ w window) h
    simp [C05.setupCalls, C05.shaderCalls]
  · refine ⟨C05.contextCalls window ++ C05.shaderCalls w ++
        [.glGenVertexArrays 1, .glGenBuffers 1],
      [.glPolygonMode .GL_FRONT_AND_BACK (if C05.OnlyRenderLines then .GL_LINE else .GL_FILL)] ++
        C05.loopCalls w.frames window w.shaderProgram w.VAO fuel 0 false ++
        (if loopDone w.frames fuel 0 false = true then C05.teardownCalls w else []), ?_, ?_⟩
    · rw [r2]; simp [C05.setupCalls, C05.arrayCalls]
    · have n := filter_loopCalls Call.isAttribSetup _
        (fun c hc => C05.loopCalls_isLoopCall_p2 w window w.shaderProgram w.VAO fuel 0
          false c hc) isLoopCall_not_attribSetup
      have e : (if loopDone w.frames fuel 0 false = true then C05.teardownCalls w
          else []).filter Call.isAttribSetup = [] := by
        split_ifs <;> simp [C05.teardownCalls, Call.isAttribSetup]
      simp only [List.filter_append, n, e, C05.shaderCalls_filter_attrib]
      simp [C05.contextCalls, C05.bootCalls, Call.isAttribSetup]
  · intro hc
    rw [r1] at hc
    have hd : loopDone w.frames fuel 0 false = false := by
      cases h : loopDone w.frames fuel 0 false with
      | false => rfl
      | true => simp [h] at hc
    exact (r6 hd).2
  · rw [r2]; simp [C05.setupCalls, C05.shaderCalls]

/-- Witness for C9 at `worldOk`: the attribute slot declared by the running
program is slot 0 of the generated array, sourced from the generated buffer. -/
theorem C9_ordering_invariant_witness :
    (C05.main worldOk 0).sys.attribs = [⟨1, 0, 3, .GL_FLOAT, false, 12, 0, 1⟩] :=
  ((C9_ordering_invariant worldOk 0 1 rfl (by decide)).2.2.1 rfl).1

/-- C10: in program 2, on every run that gets past the loader, the buffer store
has 36 = `sizeof(vertices)` bytes and the attribute is 3 floats of 4 bytes at
stride 12 and offset 0 for as long as the loop runs; each draw call reads bytes
`0 .. 35` of that buffer once each, in order (as many such blocks were fetched as
draw calls were issued); every byte fetched for vertex `i` has `i < 3` and lies
in `[12 i, 12 i + 12)`, hence below 36. -/
theorem C10_draw_stays_in_buffer (w : World) (fuel window : Nat) (hw : w.window = some window)
    (hg : w.gladResult ≠ 0) :
    3 * sizeofFloat = 12 ∧ sizeofFloat * C05.vertices.length = 36 ∧
    ((C05.main w fuel).code = none →
      (C05.main w fuel).sys.buffers = [(w.VBO, ⟨36, C05.vertices, .GL_STATIC_DRAW⟩)] ∧
      (C05.main w fuel).sys.attribs = [⟨w.VAO, 0, 3, .GL_FLOAT, false, 12, 0, w.VBO⟩] ∧
      (C05.main w fuel).sys.enabled = [(w.VAO, 0)]) ∧
    (C05.main w fuel).sys.fetched =
      (List.replicate ((C05.main w fuel).sys.calls.filter Call.isDraw).length
        (triangleBytes w.VBO)).flatten ∧
    (∀ c ∈ (C05.main w fuel).sys.calls, c.isDraw = true → c = .glDrawArrays .GL_TRIANGLES 0 3) ∧
    (∀ f ∈ (C05.main w fuel).sys.fetched,
      f.buffer = w.VBO ∧ f.vertex < 3 ∧ 12 * f.vertex ≤ f.byte ∧
      f.byte < 12 * f.vertex + 12 ∧ f.byte < 36) := by
  obtain ⟨r1, r2, -, -, r5, r6⟩ := C05.mainWith_run C05.OnlyRenderLines w fuel window hw hg
  have hn : ((C05.main w fuel).sys.calls.filter Call.isDraw).length =
      loopIterations w.frames fuel 0 false := by
    unfold C05.main
    rw [r2, List.filter_append, List.filter_append, List.length_append, List.length_append,
      C05.loopCalls_draw_count]
    have e1 : (C05.setupCalls C05.OnlyRenderLines w window).filter Call.isDraw = [] := by
      rw [List.filter_eq_nil_iff]
      intro c hc
      simp [C05.setupCalls_no_draw _ w window c hc]
    have e2 : (if loopDone w.frames fuel 0 false = true then C05.teardownCalls w
        else []).filter Call.isDraw = [] := by
      split_ifs <;> simp [C05.teardownCalls, Call.isDraw]
    rw [e1, e2]; simp
  have hf : (C05.main w fuel).sys.fetched =
      (List.replicate ((C05.main w fuel).sys.calls.filter Call.isDraw).length
        (triangleBytes w.VBO)).flatten := by
    rw [hn]; unfold C05.main; rw [r5, vertexFetch_triangle]
  refine ⟨rfl, by simp [sizeofFloat, C05.vertices], ?_, hf, ?_, ?_⟩
  · intro hc
    unfold C05.main at hc ⊢
    rw [r1] at hc
    have hd : loopDone w.frames fuel 0 false = false := by
      cases h : loopDone w.frames fuel 0 false with
      | false => rfl
      | true => simp [h] at hc
    exact r6 hd
  · intro c hc hd
    unfold C05.main at hc
    rw [r2] at hc
    rcases List.mem_append.1 hc with hc | hc
    · rcases List.mem_append.1 hc with hc | hc
      · rw [C05.setupCalls_no_draw _ w window c hc] at hd; cases hd
      · exact C05.loopCalls_draw w window fuel 0 false c hc hd
    · rw [(C05.teardownCalls_mem w _ c hc).2.1] at hd; cases hd
  · intro f hfm
    rw [hf] at hfm
    simp only [List.mem_flatten, List.mem_replicate] at hfm
    obtain ⟨l, ⟨-, rfl⟩, hl⟩ := hfm
    exact triangleBytes_bounds w.VBO f hl

/-- Witness for C10 at `worldOk`: after the single iteration of that run, one
block of 36 bytes has been fetched. -/
theorem C10_draw_stays_in_buffer_witness :
    (C05.main worldOk 2).sys.fetched =
      (List.replicate ((C05.main worldOk 2).sys.calls.filter Call.isDraw).length
        (triangleBytes 1)).flatten :=
  (C10_draw_stays_in_buffer worldOk 2 1 rfl (by decide)).2.2.2.1

end OpenGLProject1
